import Mathlib

/-! # Route tables and constructors of the nightingale routers

A shallow embedding of `pushgw/router/router.go` and of `center/router/router.go`
(the constructors and the method `Config`), with the part of the gin route table they
drive, and a model of the registry, adapters, normalizer and dispatcher that the
specification describes.

* A Go `map[string]string` is an association list; the order of the list is the
  order in which a `range` loop visits the entries.
* A gin engine is the pair of its root middleware list and its route table; the
  calls `Group`, `Use`, `POST`, `GET` are state-passing functions on it.
* A pointer to a value whose type is declared in another package is an address.
-/

/-! ## Go values -/

/-- A pointer `*T` to a value of a type declared in another package: its address
(`0` is `nil`).  The routers only store and hand on such pointers. -/
structure Ptr (T : Type) where
  addr : Nat
deriving DecidableEq, Repr

/-- A by-value struct or interface of another package whose fields the routers never
read: an identity tag standing for its contents. -/
structure Val (T : Type) where
  tag : Nat
deriving DecidableEq, Repr

/-- Go `m[k]` with the comma-ok form: the value stored under `k`, if any. -/
def mapGet (m : List (String × String)) (k : String) : Option String :=
  match m with
  | [] => none
  | (k', v) :: rest => if k' = k then some v else mapGet rest k

/-- Go `m[k] = v`: overwrite the entry of `k` when there is one, add it otherwise. -/
def mapSet (m : List (String × String)) (k v : String) : List (String × String) :=
  match m with
  | [] => [(k, v)]
  | (k', v') :: rest => if k' = k then (k, v) :: rest else (k', v') :: mapSet rest k v

/-! ## The part of gin the routers use -/

namespace gin

/-- The type `gin.Accounts`, a `map[string]string` from user name to password. -/
abbrev Accounts := List (String × String)

inductive Method
  | GET
  | POST
  | PUT
  | DELETE
  | PATCH
  | HEAD
  | OPTIONS
  | CONNECT
  | TRACE
deriving DecidableEq, Repr

/-- One entry of the route table.  `Group` is the middleware of the router group at
the time of the registration and `Handlers` what the registering call was given; gin
stores their concatenation (`combineHandlers`), here `chain`. -/
structure RouteInfo (H : Type) where
  Method : Method
  Path : String
  Group : List H
  Handlers : List H
deriving DecidableEq, Repr

/-- The handler chain gin runs for a request matching the route. -/
def RouteInfo.chain {H : Type} (x : RouteInfo H) : List H :=
  x.Group ++ x.Handlers

/-- The business handler of a route, the last function of its chain. -/
def RouteInfo.handler {H : Type} (x : RouteInfo H) : Option H :=
  x.chain.getLast?

structure RouterGroup (H : Type) where
  Handlers : List H
  basePath : String
deriving DecidableEq, Repr

/-- The engine: its root group (base path `/`), the route table and the functions
given to `NoRoute`. -/
structure Engine (H : Type) where
  Handlers : List H
  routes : List (RouteInfo H)
  noRoute : List H := []
deriving DecidableEq, Repr

/-- The function `joinPaths` of gin on the paths the routers pass: rooted, clean
literals, for which `path.Join` under the root `/` gives the relative path back and
under another base appends it (a trailing slash is kept). -/
def joinPaths (absolutePath relativePath : String) : String :=
  if relativePath = "" then absolutePath
  else if absolutePath = "/" then relativePath
  else absolutePath ++ relativePath

def Engine.Group {H : Type} (r : Engine H) (relativePath : String) : RouterGroup H :=
  { Handlers := r.Handlers, basePath := joinPaths "/" relativePath }

def RouterGroup.Use {H : Type} (g : RouterGroup H) (middleware : List H) : RouterGroup H :=
  { g with Handlers := g.Handlers ++ middleware }

/-- The method `RouterGroup.handle`: add the route to the table of the engine. -/
def RouterGroup.handle {H : Type} (g : RouterGroup H) (r : Engine H) (httpMethod : Method)
    (relativePath : String) (handlers : List H) : Engine H :=
  { r with routes := r.routes ++
      [{ Method := httpMethod, Path := joinPaths g.basePath relativePath,
         Group := g.Handlers, Handlers := handlers }] }

def RouterGroup.POST {H : Type} (g : RouterGroup H) (r : Engine H) (relativePath : String)
    (handlers : List H) : Engine H :=
  g.handle r Method.POST relativePath handlers

def Engine.Use {H : Type} (r : Engine H) (middleware : List H) : Engine H :=
  { r with Handlers := r.Handlers ++ middleware }

def Engine.handle {H : Type} (r : Engine H) (httpMethod : Method) (relativePath : String)
    (handlers : List H) : Engine H :=
  RouterGroup.handle { Handlers := r.Handlers, basePath := "/" } r httpMethod relativePath handlers

def Engine.POST {H : Type} (r : Engine H) (relativePath : String) (handlers : List H) :
    Engine H :=
  r.handle Method.POST relativePath handlers

def Engine.GET {H : Type} (r : Engine H) (relativePath : String) (handlers : List H) :
    Engine H :=
  r.handle Method.GET relativePath handlers

def Engine.HEAD {H : Type} (r : Engine H) (relativePath : String) (handlers : List H) :
    Engine H :=
  r.handle Method.HEAD relativePath handlers

/-- The method `StaticFS`: a GET and a HEAD route on `relativePath/*filepath`, both to
the file handler `createStaticHandler` builds, here the argument `handler`. -/
def Engine.StaticFS {H : Type} (r : Engine H) (relativePath : String) (handler : H) :
    Engine H :=
  let urlPattern := relativePath ++ "/*filepath"
  let r := r.GET urlPattern [handler]
  r.HEAD urlPattern [handler]

def Engine.NoRoute {H : Type} (r : Engine H) (handlers : List H) : Engine H :=
  { r with noRoute := handlers }

/-- The methods `Any` registers a route for, in the order of gin. -/
def anyMethods : List Method :=
  [Method.GET, Method.POST, Method.PUT, Method.PATCH, Method.HEAD, Method.OPTIONS,
   Method.DELETE, Method.CONNECT, Method.TRACE]

/-- One registering call on a router group, `g.GET(path, handlers...)` and the like:
the methods it registers for (one, or `anyMethods` for `Any`), the relative path and
the functions given. -/
structure Call (H : Type) where
  methods : List Method
  relativePath : String
  handlers : List H
deriving DecidableEq, Repr

def Call.GET {H : Type} (relativePath : String) (handlers : List H) : Call H :=
  { methods := [Method.GET], relativePath := relativePath, handlers := handlers }

def Call.POST {H : Type} (relativePath : String) (handlers : List H) : Call H :=
  { methods := [Method.POST], relativePath := relativePath, handlers := handlers }

def Call.PUT {H : Type} (relativePath : String) (handlers : List H) : Call H :=
  { methods := [Method.PUT], relativePath := relativePath, handlers := handlers }

def Call.DELETE {H : Type} (relativePath : String) (handlers : List H) : Call H :=
  { methods := [Method.DELETE], relativePath := relativePath, handlers := handlers }

def Call.Any {H : Type} (relativePath : String) (handlers : List H) : Call H :=
  { methods := anyMethods, relativePath := relativePath, handlers := handlers }

/-- Run one registering call on the group: `handle` for each of its methods. -/
def RouterGroup.call {H : Type} (g : RouterGroup H) (r : Engine H) (c : Call H) : Engine H :=
  c.methods.foldl (fun r m => g.handle r m c.relativePath c.handlers) r

/-- Run a sequence of registering calls on the group, in order. -/
def RouterGroup.calls {H : Type} (g : RouterGroup H) (r : Engine H) (cs : List (Call H)) :
    Engine H :=
  cs.foldl (fun r c => g.call r c) r

end gin

/-! ## Configuration types read by the routers -/

namespace httpx

/-- The struct `httpx.BasicAuths`. -/
structure BasicAuths where
  BasicAuth : gin.Accounts
  Enable : Bool
deriving DecidableEq, Repr

/-- The fields of `httpx.Config` the routers read. -/
structure Config where
  APIForAgent : BasicAuths
  APIForService : BasicAuths
deriving DecidableEq, Repr

end httpx

namespace cconf

structure AnonymousAccess where
  PromQuerier : Bool
  AlertDetail : Bool
deriving DecidableEq, Repr

/-- The fields of `cconf.Center` the router of the center reads. -/
structure Center where
  AnonymousAccess : AnonymousAccess
  UseFileAssets : Bool
  I18NHeaderKey : String
deriving DecidableEq, Repr

end cconf

namespace conf

structure CenterApi where
  Addrs : List String
deriving DecidableEq, Repr

end conf

namespace ctx

/-- The fields of `ctx.Context` the routers read.  The routers hold a `*ctx.Context`
and dereference it; the embedding holds the pointee. -/
structure Context where
  CenterApi : conf.CenterApi
  IsCenter : Bool
deriving DecidableEq, Repr

end ctx

/-! Names of the types of other packages that the routers only point to. -/

inductive pconf.Pushgw : Type
inductive aconf.Alert : Type
inductive cconf.Operation : Type
inductive conf.Ibex : Type
inductive memsto.TargetCacheType : Type
inductive memsto.BusiGroupCacheType : Type
inductive memsto.DatasourceCacheType : Type
inductive memsto.NotifyConfigCacheType : Type
inductive memsto.UserCacheType : Type
inductive memsto.UserGroupCacheType : Type
inductive memsto.UserTokenCacheType : Type
inductive idents.Set : Type
inductive metas.Set : Type
inductive writer.WritersType : Type
inductive prom.PromClientMap : Type
inductive storage.Redis : Type
inductive sso.SsoClient : Type
inductive gorm.DB : Type
inductive models.AlertRule : Type
inductive GoAny : Type

namespace prompb

structure Label where
  Name : String
  Value : String
deriving DecidableEq, Repr

/-- A sample; the value is the bit pattern of the 64-bit float. -/
structure Sample where
  Value : Nat
  Timestamp : Int
deriving DecidableEq, Repr

structure TimeSeries where
  Labels : List Label
  Samples : List Sample
deriving DecidableEq, Repr

end prompb

/-! ## `pushgw/router/router.go` -/

namespace pushgw

/-- The functions that occur in handler chains of the push gateway. -/
inductive Handler
  /-- A middleware installed on the engine before `Config` runs. -/
  | other (name : String)
  /-- The result of `stat()`. -/
  | stat
  /-- The result of `gin.BasicAuth(accounts)`. -/
  | BasicAuth (accounts : gin.Accounts)
  | targetUpdate
  | datadogSeries
  | datadogCheckRun
  | datadogValidate
  | datadogMetadata
  | datadogIntake
  | openTSDBPut
  | falconPush
  | remoteWrite
  | proxyRemoteWrite
  | heartbeat
deriving DecidableEq, Repr

/-- A `*prompb.TimeSeries` (`none` is `nil`) to a `*prompb.TimeSeries`. -/
abbrev HandleTSFunc := Option prompb.TimeSeries → Option prompb.TimeSeries

structure Router where
  HTTP : httpx.Config
  Pushgw : Val pconf.Pushgw
  Aconf : Val aconf.Alert
  TargetCache : Ptr memsto.TargetCacheType
  BusiGroupCache : Ptr memsto.BusiGroupCacheType
  IdentSet : Ptr idents.Set
  MetaSet : Ptr metas.Set
  Writers : Ptr writer.WritersType
  Ctx : ctx.Context
  HandleTS : HandleTSFunc
  HeartbeartApi : String

def New (httpConfig : httpx.Config) (pushgw : Val pconf.Pushgw) (aconf : Val aconf.Alert)
    (tc : Ptr memsto.TargetCacheType) (bg : Ptr memsto.BusiGroupCacheType)
    (idents : Ptr idents.Set) (metas : Ptr metas.Set)
    (writers : Ptr writer.WritersType) (ctx : ctx.Context) : Router :=
  { HTTP := httpConfig
    Pushgw := pushgw
    Aconf := aconf
    Writers := writers
    Ctx := ctx
    TargetCache := tc
    BusiGroupCache := bg
    IdentSet := idents
    MetaSet := metas
    HandleTS := fun pt => pt
    HeartbeartApi := "" }

/-- Lines 90-93 of `Config`: a fresh table filled from `APIForAgent.BasicAuth`. -/
def copyAccounts (agent : gin.Accounts) : gin.Accounts :=
  agent.foldl (fun accounts e => mapSet accounts e.1 e.2) []

/-- Lines 96-102 of `Config`: the entries of `APIForService.BasicAuth` whose user name
is not in the table yet are added (a conflict is logged and skipped). -/
def mergeService (accounts service : gin.Accounts) : gin.Accounts :=
  service.foldl
    (fun accounts e => if (mapGet accounts e.1).isSome then accounts else mapSet accounts e.1 e.2)
    accounts

/-- The table `accounts` of `Config` at line 104. -/
def Router.accounts (rt : Router) : gin.Accounts :=
  mergeService (copyAccounts rt.HTTP.APIForAgent.BasicAuth) rt.HTTP.APIForService.BasicAuth

/-- The method `Config`: each call on `service` and `r` of the source in order. -/
def Router.Config (rt : Router) (r : gin.Engine Handler) : gin.Engine Handler :=
  let service := r.Group "/v1/n9e"
  let service :=
    if rt.HTTP.APIForService.BasicAuth.length > 0 then
      service.Use [Handler.BasicAuth rt.HTTP.APIForService.BasicAuth]
    else service
  let r := service.POST r "/target-update" [Handler.targetUpdate]
  if !rt.HTTP.APIForAgent.Enable then r
  else
    let r := r.Use [Handler.stat]
    let r := r.POST "/datadog/api/v1/series" [Handler.datadogSeries]
    let r := r.POST "/datadog/api/v1/check_run" [Handler.datadogCheckRun]
    let r := r.GET "/datadog/api/v1/validate" [Handler.datadogValidate]
    let r := r.POST "/datadog/api/v1/metadata" [Handler.datadogMetadata]
    let r := r.POST "/datadog/intake/" [Handler.datadogIntake]
    if rt.HTTP.APIForAgent.BasicAuth.length > 0 then
      let auth := Handler.BasicAuth rt.accounts
      let r := r.POST "/opentsdb/put" [auth, Handler.openTSDBPut]
      let r := r.POST "/openfalcon/push" [auth, Handler.falconPush]
      let r := r.POST "/prometheus/v1/write" [auth, Handler.remoteWrite]
      let r := r.POST "/proxy/v1/write" [auth, Handler.proxyRemoteWrite]
      let r := r.POST "/v1/n9e/edge/heartbeat" [auth, Handler.heartbeat]
      if rt.Ctx.CenterApi.Addrs.length > 0 then
        r.POST "/v1/n9e/heartbeat" [auth, Handler.heartbeat]
      else r
    else
      let r := r.POST "/opentsdb/put" [Handler.openTSDBPut]
      let r := r.POST "/openfalcon/push" [Handler.falconPush]
      let r := r.POST "/prometheus/v1/write" [Handler.remoteWrite]
      let r := r.POST "/proxy/v1/write" [Handler.proxyRemoteWrite]
      let r := r.POST "/v1/n9e/edge/heartbeat" [Handler.heartbeat]
      if rt.Ctx.CenterApi.Addrs.length > 0 then
        r.POST "/v1/n9e/heartbeat" [Handler.heartbeat]
      else r

/-- The routes a call of `Config` adds to the table of the engine. -/
def Router.registered (rt : Router) (r : gin.Engine Handler) : List (gin.RouteInfo Handler) :=
  (rt.Config r).routes.drop r.routes.length

end pushgw

/-! ## The constructor of `center/router/router.go` -/

namespace center

abbrev HeartbeatHookFunc := String → Option (List (String × Val GoAny))

/-- The type `models.TargetDeleteHookFunc`; the result is the error (`none` is `nil`). -/
abbrev TargetDeleteHookFunc := Ptr gorm.DB → List String → Option String

abbrev AlertRuleModifyHookFunc := Ptr models.AlertRule → Unit

structure Router where
  HTTP : httpx.Config
  Center : cconf.Center
  Ibex : Val conf.Ibex
  Alert : Val aconf.Alert
  Operations : Val cconf.Operation
  DatasourceCache : Ptr memsto.DatasourceCacheType
  NotifyConfigCache : Ptr memsto.NotifyConfigCacheType
  PromClients : Ptr prom.PromClientMap
  Redis : Val storage.Redis
  MetaSet : Ptr metas.Set
  IdentSet : Ptr idents.Set
  TargetCache : Ptr memsto.TargetCacheType
  Sso : Ptr sso.SsoClient
  UserCache : Ptr memsto.UserCacheType
  UserGroupCache : Ptr memsto.UserGroupCacheType
  UserTokenCache : Ptr memsto.UserTokenCacheType
  Ctx : ctx.Context
  HeartbeatHook : HeartbeatHookFunc
  TargetDeleteHook : TargetDeleteHookFunc
  AlertRuleModifyHook : AlertRuleModifyHookFunc

def New (httpConfig : httpx.Config) (center : cconf.Center) (alert : Val aconf.Alert)
    (ibex : Val conf.Ibex) (operations : Val cconf.Operation)
    (ds : Ptr memsto.DatasourceCacheType) (ncc : Ptr memsto.NotifyConfigCacheType)
    (pc : Ptr prom.PromClientMap) (redis : Val storage.Redis)
    (sso : Ptr sso.SsoClient) (ctx : ctx.Context) (metaSet : Ptr metas.Set)
    (idents : Ptr idents.Set) (tc : Ptr memsto.TargetCacheType)
    (uc : Ptr memsto.UserCacheType) (ugc : Ptr memsto.UserGroupCacheType)
    (utc : Ptr memsto.UserTokenCacheType) : Router :=
  { HTTP := httpConfig
    Center := center
    Alert := alert
    Ibex := ibex
    Operations := operations
    DatasourceCache := ds
    NotifyConfigCache := ncc
    PromClients := pc
    Redis := redis
    MetaSet := metaSet
    IdentSet := idents
    TargetCache := tc
    Sso := sso
    UserCache := uc
    UserGroupCache := ugc
    UserTokenCache := utc
    Ctx := ctx
    HeartbeatHook := fun _ => none
    TargetDeleteHook := fun _ _ => none
    AlertRuleModifyHook := fun _ => () }

end center

/-! ## The method `Config` of `center/router/router.go` -/

namespace center
open gin

/-- The functions that occur in handler chains of the center. -/
inductive Handler
  /-- A middleware installed on the engine before `Config` runs. -/
  | other (name : String)
  /-- The result of `stat()`. -/
  | stat
  /-- The result of `languageDetector(i18NHeaderKey)`. -/
  | languageDetector (i18NHeaderKey : String)
  /-- The result of `aop.Recovery()`. -/
  | Recovery
  /-- The file handler `StaticFS` builds for a path. -/
  | staticFS (relativePath : String)
  /-- The result of `gin.BasicAuth(accounts)`. -/
  | BasicAuth (accounts : gin.Accounts)
  /-- The result of `rt.auth()`. -/
  | auth
  /-- The result of `rt.user()`. -/
  | user
  /-- The result of `rt.admin()`. -/
  | admin
  /-- The result of `rt.perm(operation)`. -/
  | perm (operation : String)
  /-- The result of `rt.bgro()`. -/
  | bgro
  /-- The result of `rt.bgrw()`. -/
  | bgrw
  /-- The result of `rt.userGroupWrite()`. -/
  | userGroupWrite
  /-- The result of `rt.jwtMock()`. -/
  | jwtMock
  /-- The method value `rt.name`, a business handler. -/
  | rt (name : String)
  /-- The function literal registered on `/api/n9e/versions`. -/
  | versions
  /-- The function literal `configNoRoute` gives to `NoRoute`. -/
  | noRoute
deriving DecidableEq, Repr

/-- Lines 181-205 of `Config`: the calls on `pages` in the branch taken when
`Center.AnonymousAccess.PromQuerier` is true. -/
def queryCallsAnonymous : List (Call Handler) :=
  [Call.Any "/proxy/:id/*url" [Handler.rt "dsProxy"],
   Call.POST "/query-range-batch" [Handler.rt "promBatchQueryRange"],
   Call.POST "/query-instant-batch" [Handler.rt "promBatchQueryInstant"],
   Call.GET "/datasource/brief" [Handler.rt "datasourceBriefs"],
   Call.POST "/datasource/query" [Handler.rt "datasourceQuery"],
   Call.POST "/ds-query" [Handler.rt "QueryData"],
   Call.POST "/logs-query" [Handler.rt "QueryLogV2"],
   Call.POST "/tdengine-databases" [Handler.rt "tdengineDatabases"],
   Call.POST "/tdengine-tables" [Handler.rt "tdengineTables"],
   Call.POST "/tdengine-columns" [Handler.rt "tdengineColumns"],
   Call.POST "/log-query-batch" [Handler.rt "QueryLogBatch"],
   Call.POST "/db-databases" [Handler.rt "ShowDatabases"],
   Call.POST "/db-tables" [Handler.rt "ShowTables"],
   Call.POST "/db-desc-table" [Handler.rt "DescribeTable"],
   Call.POST "/indices" [Handler.auth, Handler.user, Handler.rt "QueryIndices"],
   Call.POST "/es-variable" [Handler.auth, Handler.user, Handler.rt "QueryESVariable"],
   Call.POST "/fields" [Handler.auth, Handler.user, Handler.rt "QueryFields"],
   Call.POST "/log-query" [Handler.auth, Handler.user, Handler.rt "QueryLog"]]

/-- Lines 207-231 of `Config`: the calls on `pages` in the branch taken when
`Center.AnonymousAccess.PromQuerier` is false. -/
def queryCallsAuthenticated : List (Call Handler) :=
  [Call.Any "/proxy/:id/*url" [Handler.auth, Handler.rt "dsProxy"],
   Call.POST "/query-range-batch" [Handler.auth, Handler.rt "promBatchQueryRange"],
   Call.POST "/query-instant-batch" [Handler.auth, Handler.rt "promBatchQueryInstant"],
   Call.GET "/datasource/brief" [Handler.auth, Handler.user, Handler.rt "datasourceBriefs"],
   Call.POST "/datasource/query" [Handler.auth, Handler.user, Handler.rt "datasourceQuery"],
   Call.POST "/ds-query" [Handler.auth, Handler.rt "QueryData"],
   Call.POST "/logs-query" [Handler.auth, Handler.rt "QueryLogV2"],
   Call.POST "/tdengine-databases" [Handler.auth, Handler.rt "tdengineDatabases"],
   Call.POST "/tdengine-tables" [Handler.auth, Handler.rt "tdengineTables"],
   Call.POST "/tdengine-columns" [Handler.auth, Handler.rt "tdengineColumns"],
   Call.POST "/log-query-batch" [Handler.auth, Handler.user, Handler.rt "QueryLogBatch"],
   Call.POST "/db-databases" [Handler.auth, Handler.user, Handler.rt "ShowDatabases"],
   Call.POST "/db-tables" [Handler.auth, Handler.user, Handler.rt "ShowTables"],
   Call.POST "/db-desc-table" [Handler.auth, Handler.user, Handler.rt "DescribeTable"],
   Call.POST "/indices" [Handler.auth, Handler.user, Handler.rt "QueryIndices"],
   Call.POST "/es-variable" [Handler.rt "QueryESVariable"],
   Call.POST "/fields" [Handler.rt "QueryFields"],
   Call.POST "/log-query" [Handler.rt "QueryLog"]]

/-- Lines 234-264 of `Config`: calls on `pages`. -/
def pagesCalls1 : List (Call Handler) :=
  [Call.GET "/sql-template" [Handler.rt "QuerySqlTemplate"],
   Call.POST "/auth/login" [Handler.jwtMock, Handler.rt "loginPost"],
   Call.POST "/auth/logout" [Handler.jwtMock, Handler.auth, Handler.user, Handler.rt "logoutPost"],
   Call.POST "/auth/refresh" [Handler.jwtMock, Handler.rt "refreshPost"],
   Call.POST "/auth/captcha" [Handler.jwtMock, Handler.rt "generateCaptcha"],
   Call.POST "/auth/captcha-verify" [Handler.jwtMock, Handler.rt "captchaVerify"],
   Call.GET "/auth/ifshowcaptcha" [Handler.rt "ifShowCaptcha"],
   Call.GET "/auth/sso-config" [Handler.rt "ssoConfigNameGet"],
   Call.GET "/auth/rsa-config" [Handler.rt "rsaConfigGet"],
   Call.GET "/auth/redirect" [Handler.rt "loginRedirect"],
   Call.GET "/auth/redirect/cas" [Handler.rt "loginRedirectCas"],
   Call.GET "/auth/redirect/oauth" [Handler.rt "loginRedirectOAuth"],
   Call.GET "/auth/callback" [Handler.rt "loginCallback"],
   Call.GET "/auth/callback/cas" [Handler.rt "loginCallbackCas"],
   Call.GET "/auth/callback/oauth" [Handler.rt "loginCallbackOAuth"],
   Call.GET "/auth/perms" [Handler.rt "allPerms"],
   Call.GET "/metrics/desc" [Handler.rt "metricsDescGetFile"],
   Call.POST "/metrics/desc" [Handler.rt "metricsDescGetMap"],
   Call.GET "/notify-channels" [Handler.rt "notifyChannelsGets"],
   Call.GET "/contact-keys" [Handler.rt "contactKeysGets"],
   Call.GET "/self/perms" [Handler.auth, Handler.user, Handler.rt "permsGets"],
   Call.GET "/self/profile" [Handler.auth, Handler.user, Handler.rt "selfProfileGet"],
   Call.PUT "/self/profile" [Handler.auth, Handler.user, Handler.rt "selfProfilePut"],
   Call.PUT "/self/password" [Handler.auth, Handler.user, Handler.rt "selfPasswordPut"],
   Call.GET "/self/token" [Handler.auth, Handler.user, Handler.rt "getToken"],
   Call.POST "/self/token" [Handler.auth, Handler.user, Handler.rt "addToken"],
   Call.DELETE "/self/token/:id" [Handler.auth, Handler.user, Handler.rt "deleteToken"]]

/-- Lines 266-298 of `Config`: calls on `pages`. -/
def pagesCalls2 : List (Call Handler) :=
  [Call.GET "/users" [Handler.auth, Handler.user, Handler.perm "/users", Handler.rt "userGets"],
   Call.POST "/users"
      [Handler.auth, Handler.user, Handler.perm "/users/add", Handler.rt "userAddPost"],
   Call.GET "/user/:id/profile" [Handler.auth, Handler.rt "userProfileGet"],
   Call.PUT "/user/:id/profile"
      [Handler.auth, Handler.user, Handler.perm "/users/put", Handler.rt "userProfilePut"],
   Call.PUT "/user/:id/password"
      [Handler.auth, Handler.user, Handler.perm "/users/put", Handler.rt "userPasswordPut"],
   Call.DELETE "/user/:id"
      [Handler.auth, Handler.user, Handler.perm "/users/del", Handler.rt "userDel"],
   Call.GET "/metric-views" [Handler.auth, Handler.rt "metricViewGets"],
   Call.DELETE "/metric-views" [Handler.auth, Handler.user, Handler.rt "metricViewDel"],
   Call.POST "/metric-views" [Handler.auth, Handler.user, Handler.rt "metricViewAdd"],
   Call.PUT "/metric-views" [Handler.auth, Handler.user, Handler.rt "metricViewPut"],
   Call.GET "/builtin-metric-filters" [Handler.auth, Handler.user, Handler.rt "metricFilterGets"],
   Call.DELETE "/builtin-metric-filters" [Handler.auth, Handler.user, Handler.rt "metricFilterDel"],
   Call.POST "/builtin-metric-filters" [Handler.auth, Handler.user, Handler.rt "metricFilterAdd"],
   Call.PUT "/builtin-metric-filters" [Handler.auth, Handler.user, Handler.rt "metricFilterPut"],
   Call.POST "/builtin-metric-promql" [Handler.auth, Handler.user, Handler.rt "getMetricPromql"],
   Call.POST "/builtin-metrics"
      [Handler.auth, Handler.user, Handler.perm "/builtin-metrics/add",
       Handler.rt "builtinMetricsAdd"],
   Call.PUT "/builtin-metrics"
      [Handler.auth, Handler.user, Handler.perm "/builtin-metrics/put",
       Handler.rt "builtinMetricsPut"],
   Call.DELETE "/builtin-metrics"
      [Handler.auth, Handler.user, Handler.perm "/builtin-metrics/del",
       Handler.rt "builtinMetricsDel"],
   Call.GET "/builtin-metrics" [Handler.auth, Handler.user, Handler.rt "builtinMetricsGets"],
   Call.GET "/builtin-metrics/types" [Handler.auth, Handler.user, Handler.rt "builtinMetricsTypes"],
   Call.GET "/builtin-metrics/types/default"
      [Handler.auth, Handler.user, Handler.rt "builtinMetricsDefaultTypes"],
   Call.GET "/builtin-metrics/collectors"
      [Handler.auth, Handler.user, Handler.rt "builtinMetricsCollectors"],
   Call.GET "/user-groups" [Handler.auth, Handler.user, Handler.rt "userGroupGets"],
   Call.POST "/user-groups"
      [Handler.auth, Handler.user, Handler.perm "/user-groups/add", Handler.rt "userGroupAdd"],
   Call.GET "/user-group/:id" [Handler.auth, Handler.user, Handler.rt "userGroupGet"],
   Call.PUT "/user-group/:id"
      [Handler.auth, Handler.user, Handler.perm "/user-groups/put", Handler.userGroupWrite,
       Handler.rt "userGroupPut"],
   Call.DELETE "/user-group/:id"
      [Handler.auth, Handler.user, Handler.perm "/user-groups/del", Handler.userGroupWrite,
       Handler.rt "userGroupDel"],
   Call.POST "/user-group/:id/members"
      [Handler.auth, Handler.user, Handler.perm "/user-groups/put", Handler.userGroupWrite,
       Handler.rt "userGroupMemberAdd"],
   Call.DELETE "/user-group/:id/members"
      [Handler.auth, Handler.user, Handler.perm "/user-groups/put", Handler.userGroupWrite,
       Handler.rt "userGroupMemberDel"]]

/-- Lines 300-324 of `Config`: calls on `pages`. -/
def pagesCalls3 : List (Call Handler) :=
  [Call.GET "/busi-groups" [Handler.auth, Handler.user, Handler.rt "busiGroupGets"],
   Call.POST "/busi-groups"
      [Handler.auth, Handler.user, Handler.perm "/busi-groups/add", Handler.rt "busiGroupAdd"],
   Call.GET "/busi-groups/alertings" [Handler.auth, Handler.rt "busiGroupAlertingsGets"],
   Call.GET "/busi-group/:id" [Handler.auth, Handler.user, Handler.bgro, Handler.rt "busiGroupGet"],
   Call.PUT "/busi-group/:id"
      [Handler.auth, Handler.user, Handler.perm "/busi-groups/put", Handler.bgrw,
       Handler.rt "busiGroupPut"],
   Call.POST "/busi-group/:id/members"
      [Handler.auth, Handler.user, Handler.perm "/busi-groups/put", Handler.bgrw,
       Handler.rt "busiGroupMemberAdd"],
   Call.DELETE "/busi-group/:id/members"
      [Handler.auth, Handler.user, Handler.perm "/busi-groups/put", Handler.bgrw,
       Handler.rt "busiGroupMemberDel"],
   Call.DELETE "/busi-group/:id"
      [Handler.auth, Handler.user, Handler.perm "/busi-groups/del", Handler.bgrw,
       Handler.rt "busiGroupDel"],
   Call.GET "/busi-group/:id/perm/:perm"
      [Handler.auth, Handler.user, Handler.rt "checkBusiGroupPerm"],
   Call.GET "/busi-groups/tags" [Handler.auth, Handler.user, Handler.rt "busiGroupsGetTags"],
   Call.GET "/targets" [Handler.auth, Handler.user, Handler.rt "targetGets"],
   Call.GET "/target/extra-meta" [Handler.auth, Handler.user, Handler.rt "targetExtendInfoByIdent"],
   Call.POST "/target/list" [Handler.auth, Handler.user, Handler.rt "targetGetsByHostFilter"],
   Call.DELETE "/targets"
      [Handler.auth, Handler.user, Handler.perm "/targets/del", Handler.rt "targetDel"],
   Call.GET "/targets/tags" [Handler.auth, Handler.user, Handler.rt "targetGetTags"],
   Call.POST "/targets/tags"
      [Handler.auth, Handler.user, Handler.perm "/targets/put", Handler.rt "targetBindTagsByFE"],
   Call.DELETE "/targets/tags"
      [Handler.auth, Handler.user, Handler.perm "/targets/put", Handler.rt "targetUnbindTagsByFE"],
   Call.PUT "/targets/note"
      [Handler.auth, Handler.user, Handler.perm "/targets/put", Handler.rt "targetUpdateNote"],
   Call.PUT "/targets/bgids"
      [Handler.auth, Handler.user, Handler.perm "/targets/put", Handler.rt "targetBindBgids"],
   Call.POST "/builtin-cate-favorite"
      [Handler.auth, Handler.user, Handler.rt "builtinCateFavoriteAdd"],
   Call.DELETE "/builtin-cate-favorite/:name"
      [Handler.auth, Handler.user, Handler.rt "builtinCateFavoriteDel"],
   Call.GET "/integrations/icon/:cate/:name" [Handler.rt "builtinIcon"]]

/-- Lines 333-354 of `Config`: calls on `pages`. -/
def pagesCalls4 : List (Call Handler) :=
  [Call.GET "/busi-groups/public-boards"
      [Handler.auth, Handler.user, Handler.perm "/dashboards", Handler.rt "publicBoardGets"],
   Call.GET "/busi-groups/boards"
      [Handler.auth, Handler.user, Handler.perm "/dashboards", Handler.rt "boardGetsByGids"],
   Call.GET "/busi-group/:id/boards"
      [Handler.auth, Handler.user, Handler.perm "/dashboards", Handler.bgro, Handler.rt "boardGets"],
   Call.POST "/busi-group/:id/boards"
      [Handler.auth, Handler.user, Handler.perm "/dashboards/add", Handler.bgrw,
       Handler.rt "boardAdd"],
   Call.POST "/busi-group/:id/board/:bid/clone"
      [Handler.auth, Handler.user, Handler.perm "/dashboards/add", Handler.bgrw,
       Handler.rt "boardClone"],
   Call.POST "/busi-groups/boards/clones"
      [Handler.auth, Handler.user, Handler.perm "/dashboards/add", Handler.rt "boardBatchClone"],
   Call.GET "/boards" [Handler.auth, Handler.user, Handler.rt "boardGetsByBids"],
   Call.GET "/board/:bid" [Handler.rt "boardGet"],
   Call.GET "/board/:bid/pure" [Handler.rt "boardPureGet"],
   Call.PUT "/board/:bid"
      [Handler.auth, Handler.user, Handler.perm "/dashboards/put", Handler.rt "boardPut"],
   Call.PUT "/board/:bid/configs"
      [Handler.auth, Handler.user, Handler.perm "/dashboards/put", Handler.rt "boardPutConfigs"],
   Call.PUT "/board/:bid/public"
      [Handler.auth, Handler.user, Handler.perm "/dashboards/put", Handler.rt "boardPutPublic"],
   Call.DELETE "/boards"
      [Handler.auth, Handler.user, Handler.perm "/dashboards/del", Handler.rt "boardDel"],
   Call.GET "/share-charts" [Handler.rt "chartShareGets"],
   Call.POST "/share-charts" [Handler.auth, Handler.rt "chartShareAdd"],
   Call.POST "/dashboard-annotations"
      [Handler.auth, Handler.user, Handler.perm "/dashboards/put", Handler.rt "dashAnnotationAdd"],
   Call.GET "/dashboard-annotations" [Handler.rt "dashAnnotationGets"],
   Call.PUT "/dashboard-annotation/:id"
      [Handler.auth, Handler.user, Handler.perm "/dashboards/put", Handler.rt "dashAnnotationPut"],
   Call.DELETE "/dashboard-annotation/:id"
      [Handler.auth, Handler.user, Handler.perm "/dashboards/del", Handler.rt "dashAnnotationDel"]]

/-- Lines 358-376 of `Config`: calls on `pages`. -/
def pagesCalls5 : List (Call Handler) :=
  [Call.GET "/alert-rules/callbacks" [Handler.auth, Handler.user, Handler.rt "alertRuleCallbacks"],
   Call.GET "/busi-groups/alert-rules"
      [Handler.auth, Handler.user, Handler.perm "/alert-rules", Handler.rt "alertRuleGetsByGids"],
   Call.GET "/busi-group/:id/alert-rules"
      [Handler.auth, Handler.user, Handler.perm "/alert-rules", Handler.rt "alertRuleGets"],
   Call.POST "/busi-group/:id/alert-rules"
      [Handler.auth, Handler.user, Handler.perm "/alert-rules/add", Handler.bgrw,
       Handler.rt "alertRuleAddByFE"],
   Call.POST "/busi-group/:id/alert-rules/import"
      [Handler.auth, Handler.user, Handler.perm "/alert-rules/add", Handler.bgrw,
       Handler.rt "alertRuleAddByImport"],
   Call.POST "/busi-group/:id/alert-rules/import-prom-rule"
      [Handler.auth, Handler.user, Handler.perm "/alert-rules/add", Handler.bgrw,
       Handler.rt "alertRuleAddByImportPromRule"],
   Call.DELETE "/busi-group/:id/alert-rules"
      [Handler.auth, Handler.user, Handler.perm "/alert-rules/del", Handler.bgrw,
       Handler.rt "alertRuleDel"],
   Call.PUT "/busi-group/:id/alert-rules/fields"
      [Handler.auth, Handler.user, Handler.perm "/alert-rules/put", Handler.bgrw,
       Handler.rt "alertRulePutFields"],
   Call.PUT "/busi-group/:id/alert-rule/:arid"
      [Handler.auth, Handler.user, Handler.perm "/alert-rules/put", Handler.rt "alertRulePutByFE"],
   Call.GET "/alert-rule/:arid"
      [Handler.auth, Handler.user, Handler.perm "/alert-rules", Handler.rt "alertRuleGet"],
   Call.GET "/alert-rule/:arid/pure"
      [Handler.auth, Handler.user, Handler.perm "/alert-rules", Handler.rt "alertRulePureGet"],
   Call.PUT "/busi-group/alert-rule/validate"
      [Handler.auth, Handler.user, Handler.perm "/alert-rules/put",
       Handler.rt "alertRuleValidation"],
   Call.POST "/relabel-test" [Handler.auth, Handler.user, Handler.rt "relabelTest"],
   Call.POST "/busi-group/:id/alert-rules/clone"
      [Handler.auth, Handler.user, Handler.perm "/alert-rules/add", Handler.bgrw,
       Handler.rt "cloneToMachine"],
   Call.POST "/busi-groups/alert-rules/clones"
      [Handler.auth, Handler.user, Handler.perm "/alert-rules/add",
       Handler.rt "batchAlertRuleClone"],
   Call.POST "/busi-group/alert-rules/notify-tryrun"
      [Handler.auth, Handler.user, Handler.perm "/alert-rules/add",
       Handler.rt "alertRuleNotifyTryRun"],
   Call.POST "/busi-group/alert-rules/enable-tryrun"
      [Handler.auth, Handler.user, Handler.perm "/alert-rules/add",
       Handler.rt "alertRuleEnableTryRun"]]

/-- Lines 378-402 of `Config`: calls on `pages`. -/
def pagesCalls6 : List (Call Handler) :=
  [Call.GET "/busi-groups/recording-rules"
      [Handler.auth, Handler.user, Handler.perm "/recording-rules",
       Handler.rt "recordingRuleGetsByGids"],
   Call.GET "/busi-group/:id/recording-rules"
      [Handler.auth, Handler.user, Handler.perm "/recording-rules", Handler.rt "recordingRuleGets"],
   Call.POST "/busi-group/:id/recording-rules"
      [Handler.auth, Handler.user, Handler.perm "/recording-rules/add", Handler.bgrw,
       Handler.rt "recordingRuleAddByFE"],
   Call.DELETE "/busi-group/:id/recording-rules"
      [Handler.auth, Handler.user, Handler.perm "/recording-rules/del", Handler.bgrw,
       Handler.rt "recordingRuleDel"],
   Call.PUT "/busi-group/:id/recording-rule/:rrid"
      [Handler.auth, Handler.user, Handler.perm "/recording-rules/put", Handler.bgrw,
       Handler.rt "recordingRulePutByFE"],
   Call.GET "/recording-rule/:rrid"
      [Handler.auth, Handler.user, Handler.perm "/recording-rules", Handler.rt "recordingRuleGet"],
   Call.PUT "/busi-group/:id/recording-rules/fields"
      [Handler.auth, Handler.user, Handler.perm "/recording-rules/put",
       Handler.rt "recordingRulePutFields"],
   Call.GET "/busi-groups/alert-mutes"
      [Handler.auth, Handler.user, Handler.perm "/alert-mutes", Handler.rt "alertMuteGetsByGids"],
   Call.GET "/busi-group/:id/alert-mutes"
      [Handler.auth, Handler.user, Handler.perm "/alert-mutes", Handler.bgro,
       Handler.rt "alertMuteGetsByBG"],
   Call.POST "/busi-group/:id/alert-mutes/preview"
      [Handler.auth, Handler.user, Handler.perm "/alert-mutes/add", Handler.bgrw,
       Handler.rt "alertMutePreview"],
   Call.POST "/busi-group/:id/alert-mutes"
      [Handler.auth, Handler.user, Handler.perm "/alert-mutes/add", Handler.bgrw,
       Handler.rt "alertMuteAdd"],
   Call.DELETE "/busi-group/:id/alert-mutes"
      [Handler.auth, Handler.user, Handler.perm "/alert-mutes/del", Handler.bgrw,
       Handler.rt "alertMuteDel"],
   Call.PUT "/busi-group/:id/alert-mute/:amid"
      [Handler.auth, Handler.user, Handler.perm "/alert-mutes/put", Handler.rt "alertMutePutByFE"],
   Call.GET "/busi-group/:id/alert-mute/:amid"
      [Handler.auth, Handler.user, Handler.perm "/alert-mutes", Handler.rt "alertMuteGet"],
   Call.PUT "/busi-group/:id/alert-mutes/fields"
      [Handler.auth, Handler.user, Handler.perm "/alert-mutes/put", Handler.bgrw,
       Handler.rt "alertMutePutFields"],
   Call.POST "/alert-mute-tryrun"
      [Handler.auth, Handler.user, Handler.perm "/alert-mutes/add", Handler.rt "alertMuteTryRun"],
   Call.GET "/busi-groups/alert-subscribes"
      [Handler.auth, Handler.user, Handler.perm "/alert-subscribes",
       Handler.rt "alertSubscribeGetsByGids"],
   Call.GET "/busi-group/:id/alert-subscribes"
      [Handler.auth, Handler.user, Handler.perm "/alert-subscribes", Handler.bgro,
       Handler.rt "alertSubscribeGets"],
   Call.GET "/alert-subscribe/:sid"
      [Handler.auth, Handler.user, Handler.perm "/alert-subscribes", Handler.rt "alertSubscribeGet"],
   Call.POST "/busi-group/:id/alert-subscribes"
      [Handler.auth, Handler.user, Handler.perm "/alert-subscribes/add", Handler.bgrw,
       Handler.rt "alertSubscribeAdd"],
   Call.PUT "/busi-group/:id/alert-subscribes"
      [Handler.auth, Handler.user, Handler.perm "/alert-subscribes/put", Handler.bgrw,
       Handler.rt "alertSubscribePut"],
   Call.DELETE "/busi-group/:id/alert-subscribes"
      [Handler.auth, Handler.user, Handler.perm "/alert-subscribes/del", Handler.bgrw,
       Handler.rt "alertSubscribeDel"],
   Call.POST "/alert-subscribe/alert-subscribes-tryrun"
      [Handler.auth, Handler.user, Handler.perm "/alert-subscribes/add",
       Handler.rt "alertSubscribeTryRun"]]

/-- Lines 404-433 of `Config`: calls on `pages`. -/
def pagesCalls7 : List (Call Handler) :=
  [Call.GET "/alert-cur-event/:eid" [Handler.rt "alertCurEventGet"],
   Call.GET "/alert-his-event/:eid" [Handler.rt "alertHisEventGet"],
   Call.GET "/event-notify-records/:eid" [Handler.rt "notificationRecordList"],
   Call.GET "/alert-cur-events/list" [Handler.auth, Handler.user, Handler.rt "alertCurEventsList"],
   Call.GET "/alert-cur-events/card" [Handler.auth, Handler.user, Handler.rt "alertCurEventsCard"],
   Call.POST "/alert-cur-events/card/details"
      [Handler.auth, Handler.rt "alertCurEventsCardDetails"],
   Call.GET "/alert-his-events/list" [Handler.auth, Handler.user, Handler.rt "alertHisEventsList"],
   Call.DELETE "/alert-his-events" [Handler.auth, Handler.admin, Handler.rt "alertHisEventsDelete"],
   Call.DELETE "/alert-cur-events"
      [Handler.auth, Handler.user, Handler.perm "/alert-cur-events/del",
       Handler.rt "alertCurEventDel"],
   Call.GET "/alert-cur-events/stats" [Handler.auth, Handler.rt "alertCurEventsStatistics"],
   Call.GET "/alert-aggr-views" [Handler.auth, Handler.rt "alertAggrViewGets"],
   Call.DELETE "/alert-aggr-views" [Handler.auth, Handler.user, Handler.rt "alertAggrViewDel"],
   Call.POST "/alert-aggr-views" [Handler.auth, Handler.user, Handler.rt "alertAggrViewAdd"],
   Call.PUT "/alert-aggr-views" [Handler.auth, Handler.user, Handler.rt "alertAggrViewPut"],
   Call.GET "/busi-groups/task-tpls"
      [Handler.auth, Handler.user, Handler.perm "/job-tpls", Handler.rt "taskTplGetsByGids"],
   Call.GET "/busi-group/:id/task-tpls"
      [Handler.auth, Handler.user, Handler.perm "/job-tpls", Handler.bgro, Handler.rt "taskTplGets"],
   Call.POST "/busi-group/:id/task-tpls"
      [Handler.auth, Handler.user, Handler.perm "/job-tpls/add", Handler.bgrw,
       Handler.rt "taskTplAdd"],
   Call.DELETE "/busi-group/:id/task-tpl/:tid"
      [Handler.auth, Handler.user, Handler.perm "/job-tpls/del", Handler.bgrw,
       Handler.rt "taskTplDel"],
   Call.POST "/busi-group/:id/task-tpls/tags"
      [Handler.auth, Handler.user, Handler.perm "/job-tpls/put", Handler.bgrw,
       Handler.rt "taskTplBindTags"],
   Call.DELETE "/busi-group/:id/task-tpls/tags"
      [Handler.auth, Handler.user, Handler.perm "/job-tpls/put", Handler.bgrw,
       Handler.rt "taskTplUnbindTags"],
   Call.GET "/busi-group/:id/task-tpl/:tid"
      [Handler.auth, Handler.user, Handler.perm "/job-tpls", Handler.bgro, Handler.rt "taskTplGet"],
   Call.PUT "/busi-group/:id/task-tpl/:tid"
      [Handler.auth, Handler.user, Handler.perm "/job-tpls/put", Handler.bgrw,
       Handler.rt "taskTplPut"],
   Call.GET "/busi-groups/tasks"
      [Handler.auth, Handler.user, Handler.perm "/job-tasks", Handler.rt "taskGetsByGids"],
   Call.GET "/busi-group/:id/tasks"
      [Handler.auth, Handler.user, Handler.perm "/job-tasks", Handler.bgro, Handler.rt "taskGets"],
   Call.POST "/busi-group/:id/tasks"
      [Handler.auth, Handler.user, Handler.perm "/job-tasks/add", Handler.bgrw,
       Handler.rt "taskAdd"]]

/-- Lines 435-478 of `Config`: calls on `pages`. -/
def pagesCalls8 : List (Call Handler) :=
  [Call.GET "/servers" [Handler.auth, Handler.user, Handler.rt "serversGet"],
   Call.GET "/server-clusters" [Handler.auth, Handler.user, Handler.rt "serverClustersGet"],
   Call.POST "/datasource/list" [Handler.auth, Handler.user, Handler.rt "datasourceList"],
   Call.POST "/datasource/plugin/list" [Handler.auth, Handler.rt "pluginList"],
   Call.POST "/datasource/upsert" [Handler.auth, Handler.admin, Handler.rt "datasourceUpsert"],
   Call.POST "/datasource/desc" [Handler.auth, Handler.admin, Handler.rt "datasourceGet"],
   Call.POST "/datasource/status/update"
      [Handler.auth, Handler.admin, Handler.rt "datasourceUpdataStatus"],
   Call.DELETE "/datasource/" [Handler.auth, Handler.admin, Handler.rt "datasourceDel"],
   Call.GET "/roles" [Handler.auth, Handler.user, Handler.perm "/roles", Handler.rt "roleGets"],
   Call.POST "/roles" [Handler.auth, Handler.user, Handler.perm "/roles/add", Handler.rt "roleAdd"],
   Call.PUT "/roles" [Handler.auth, Handler.user, Handler.perm "/roles/put", Handler.rt "rolePut"],
   Call.DELETE "/role/:id"
      [Handler.auth, Handler.user, Handler.perm "/roles/del", Handler.rt "roleDel"],
   Call.GET "/role/:id/ops"
      [Handler.auth, Handler.user, Handler.perm "/roles", Handler.rt "operationOfRole"],
   Call.PUT "/role/:id/ops"
      [Handler.auth, Handler.user, Handler.perm "/roles/put", Handler.rt "roleBindOperation"],
   Call.GET "/operation" [Handler.rt "operations"],
   Call.GET "/notify-tpls" [Handler.auth, Handler.user, Handler.rt "notifyTplGets"],
   Call.PUT "/notify-tpl/content" [Handler.auth, Handler.user, Handler.rt "notifyTplUpdateContent"],
   Call.PUT "/notify-tpl" [Handler.auth, Handler.user, Handler.rt "notifyTplUpdate"],
   Call.POST "/notify-tpl" [Handler.auth, Handler.user, Handler.rt "notifyTplAdd"],
   Call.DELETE "/notify-tpl/:id" [Handler.auth, Handler.user, Handler.rt "notifyTplDel"],
   Call.POST "/notify-tpl/preview" [Handler.auth, Handler.user, Handler.rt "notifyTplPreview"],
   Call.GET "/sso-configs" [Handler.auth, Handler.admin, Handler.rt "ssoConfigGets"],
   Call.PUT "/sso-config" [Handler.auth, Handler.admin, Handler.rt "ssoConfigUpdate"],
   Call.GET "/webhooks" [Handler.auth, Handler.user, Handler.rt "webhookGets"],
   Call.PUT "/webhooks" [Handler.auth, Handler.admin, Handler.rt "webhookPuts"],
   Call.GET "/notify-script"
      [Handler.auth, Handler.user, Handler.perm "/help/notification-settings",
       Handler.rt "notifyScriptGet"],
   Call.PUT "/notify-script" [Handler.auth, Handler.admin, Handler.rt "notifyScriptPut"],
   Call.GET "/notify-channel"
      [Handler.auth, Handler.user, Handler.perm "/help/notification-settings",
       Handler.rt "notifyChannelGets"],
   Call.PUT "/notify-channel" [Handler.auth, Handler.admin, Handler.rt "notifyChannelPuts"],
   Call.GET "/notify-contact" [Handler.auth, Handler.user, Handler.rt "notifyContactGets"],
   Call.PUT "/notify-contact" [Handler.auth, Handler.admin, Handler.rt "notifyContactPuts"],
   Call.GET "/notify-config"
      [Handler.auth, Handler.user, Handler.perm "/help/notification-settings",
       Handler.rt "notifyConfigGet"],
   Call.PUT "/notify-config" [Handler.auth, Handler.admin, Handler.rt "notifyConfigPut"],
   Call.PUT "/smtp-config-test" [Handler.auth, Handler.admin, Handler.rt "attemptSendEmail"]]

/-- Lines 480-503 of `Config`: calls on `pages`. -/
def pagesCalls9 : List (Call Handler) :=
  [Call.GET "/es-index-pattern" [Handler.auth, Handler.rt "esIndexPatternGet"],
   Call.GET "/es-index-pattern-list" [Handler.auth, Handler.rt "esIndexPatternGetList"],
   Call.POST "/es-index-pattern"
      [Handler.auth, Handler.user, Handler.perm "/log/index-patterns/add",
       Handler.rt "esIndexPatternAdd"],
   Call.PUT "/es-index-pattern"
      [Handler.auth, Handler.user, Handler.perm "/log/index-patterns/put",
       Handler.rt "esIndexPatternPut"],
   Call.DELETE "/es-index-pattern"
      [Handler.auth, Handler.user, Handler.perm "/log/index-patterns/del",
       Handler.rt "esIndexPatternDel"],
   Call.GET "/embedded-dashboards"
      [Handler.auth, Handler.user, Handler.perm "/embedded-dashboards",
       Handler.rt "embeddedDashboardsGet"],
   Call.PUT "/embedded-dashboards"
      [Handler.auth, Handler.user, Handler.perm "/embedded-dashboards/put",
       Handler.rt "embeddedDashboardsPut"],
   Call.GET "/embedded-product" [Handler.auth, Handler.user, Handler.rt "embeddedProductGets"],
   Call.GET "/embedded-product/:id" [Handler.auth, Handler.user, Handler.rt "embeddedProductGet"],
   Call.POST "/embedded-product"
      [Handler.auth, Handler.user, Handler.perm "/embedded-product/add",
       Handler.rt "embeddedProductAdd"],
   Call.PUT "/embedded-product/:id"
      [Handler.auth, Handler.user, Handler.perm "/embedded-product/put",
       Handler.rt "embeddedProductPut"],
   Call.DELETE "/embedded-product/:id"
      [Handler.auth, Handler.user, Handler.perm "/embedded-product/delete",
       Handler.rt "embeddedProductDelete"],
   Call.GET "/user-variable-configs"
      [Handler.auth, Handler.user, Handler.perm "/help/variable-configs",
       Handler.rt "userVariableConfigGets"],
   Call.POST "/user-variable-config"
      [Handler.auth, Handler.user, Handler.perm "/help/variable-configs",
       Handler.rt "userVariableConfigAdd"],
   Call.PUT "/user-variable-config/:id"
      [Handler.auth, Handler.user, Handler.perm "/help/variable-configs",
       Handler.rt "userVariableConfigPut"],
   Call.DELETE "/user-variable-config/:id"
      [Handler.auth, Handler.user, Handler.perm "/help/variable-configs",
       Handler.rt "userVariableConfigDel"],
   Call.GET "/config" [Handler.auth, Handler.admin, Handler.rt "configGetByKey"],
   Call.PUT "/config" [Handler.auth, Handler.admin, Handler.rt "configPutByKey"],
   Call.GET "/site-info" [Handler.rt "siteInfo"]]

/-- Lines 506-529 of `Config`: calls on `pages`. -/
def pagesCalls10 : List (Call Handler) :=
  [Call.POST "/source-token" [Handler.auth, Handler.user, Handler.rt "sourceTokenAdd"],
   Call.GET "/user/busi-groups" [Handler.auth, Handler.admin, Handler.rt "userBusiGroupsGets"],
   Call.GET "/builtin-components" [Handler.auth, Handler.user, Handler.rt "builtinComponentsGets"],
   Call.POST "/builtin-components"
      [Handler.auth, Handler.user, Handler.perm "/components/add",
       Handler.rt "builtinComponentsAdd"],
   Call.PUT "/builtin-components"
      [Handler.auth, Handler.user, Handler.perm "/components/put",
       Handler.rt "builtinComponentsPut"],
   Call.DELETE "/builtin-components"
      [Handler.auth, Handler.user, Handler.perm "/components/del",
       Handler.rt "builtinComponentsDel"],
   Call.GET "/builtin-payloads" [Handler.auth, Handler.user, Handler.rt "builtinPayloadsGets"],
   Call.GET "/builtin-payloads/cates"
      [Handler.auth, Handler.user, Handler.rt "builtinPayloadcatesGet"],
   Call.POST "/builtin-payloads"
      [Handler.auth, Handler.user, Handler.perm "/components/add", Handler.rt "builtinPayloadsAdd"],
   Call.GET "/builtin-payload/:id"
      [Handler.auth, Handler.user, Handler.perm "/components", Handler.rt "builtinPayloadGet"],
   Call.PUT "/builtin-payloads"
      [Handler.auth, Handler.user, Handler.perm "/components/put", Handler.rt "builtinPayloadsPut"],
   Call.DELETE "/builtin-payloads"
      [Handler.auth, Handler.user, Handler.perm "/components/del", Handler.rt "builtinPayloadsDel"],
   Call.GET "/builtin-payload"
      [Handler.auth, Handler.user, Handler.rt "builtinPayloadsGetByUUIDOrID"],
   Call.POST "/message-templates"
      [Handler.auth, Handler.user, Handler.perm "/notification-templates/add",
       Handler.rt "messageTemplatesAdd"],
   Call.DELETE "/message-templates"
      [Handler.auth, Handler.user, Handler.perm "/notification-templates/del",
       Handler.rt "messageTemplatesDel"],
   Call.PUT "/message-template/:id"
      [Handler.auth, Handler.user, Handler.perm "/notification-templates/put",
       Handler.rt "messageTemplatePut"],
   Call.GET "/message-template/:id"
      [Handler.auth, Handler.user, Handler.perm "/notification-templates",
       Handler.rt "messageTemplateGet"],
   Call.GET "/message-templates" [Handler.auth, Handler.user, Handler.rt "messageTemplatesGet"],
   Call.POST "/events-message" [Handler.auth, Handler.user, Handler.rt "eventsMessage"]]

/-- Lines 531-557 of `Config`: calls on `pages`. -/
def pagesCalls11 : List (Call Handler) :=
  [Call.POST "/notify-rules"
      [Handler.auth, Handler.user, Handler.perm "/notification-rules/add",
       Handler.rt "notifyRulesAdd"],
   Call.DELETE "/notify-rules"
      [Handler.auth, Handler.user, Handler.perm "/notification-rules/del",
       Handler.rt "notifyRulesDel"],
   Call.PUT "/notify-rule/:id"
      [Handler.auth, Handler.user, Handler.perm "/notification-rules/put",
       Handler.rt "notifyRulePut"],
   Call.GET "/notify-rule/:id"
      [Handler.auth, Handler.user, Handler.perm "/notification-rules", Handler.rt "notifyRuleGet"],
   Call.GET "/notify-rules"
      [Handler.auth, Handler.user, Handler.perm "/notification-rules", Handler.rt "notifyRulesGet"],
   Call.POST "/notify-rule/test"
      [Handler.auth, Handler.user, Handler.perm "/notification-rules", Handler.rt "notifyTest"],
   Call.GET "/notify-rule/custom-params"
      [Handler.auth, Handler.user, Handler.perm "/notification-rules",
       Handler.rt "notifyRuleCustomParamsGet"],
   Call.POST "/notify-rule/event-pipelines-tryrun"
      [Handler.auth, Handler.user, Handler.perm "/notification-rules/add",
       Handler.rt "tryRunEventProcessorByNotifyRule"],
   Call.GET "/event-pipelines"
      [Handler.auth, Handler.user, Handler.perm "/event-pipelines", Handler.rt "eventPipelinesList"],
   Call.POST "/event-pipeline"
      [Handler.auth, Handler.user, Handler.perm "/event-pipelines/add",
       Handler.rt "addEventPipeline"],
   Call.PUT "/event-pipeline"
      [Handler.auth, Handler.user, Handler.perm "/event-pipelines/put",
       Handler.rt "updateEventPipeline"],
   Call.GET "/event-pipeline/:id"
      [Handler.auth, Handler.user, Handler.perm "/event-pipelines", Handler.rt "getEventPipeline"],
   Call.DELETE "/event-pipelines"
      [Handler.auth, Handler.user, Handler.perm "/event-pipelines/del",
       Handler.rt "deleteEventPipelines"],
   Call.POST "/event-pipeline-tryrun"
      [Handler.auth, Handler.user, Handler.perm "/event-pipelines",
       Handler.rt "tryRunEventPipeline"],
   Call.POST "/event-processor-tryrun"
      [Handler.auth, Handler.user, Handler.perm "/event-pipelines",
       Handler.rt "tryRunEventProcessor"],
   Call.POST "/notify-channel-configs"
      [Handler.auth, Handler.user, Handler.perm "/notification-channels/add",
       Handler.rt "notifyChannelsAdd"],
   Call.DELETE "/notify-channel-configs"
      [Handler.auth, Handler.user, Handler.perm "/notification-channels/del",
       Handler.rt "notifyChannelsDel"],
   Call.PUT "/notify-channel-config/:id"
      [Handler.auth, Handler.user, Handler.perm "/notification-channels/put",
       Handler.rt "notifyChannelPut"],
   Call.GET "/notify-channel-config/:id"
      [Handler.auth, Handler.user, Handler.perm "/notification-channels",
       Handler.rt "notifyChannelGet"],
   Call.GET "/notify-channel-configs"
      [Handler.auth, Handler.user, Handler.perm "/notification-channels",
       Handler.rt "notifyChannelsGet"],
   Call.GET "/simplified-notify-channel-configs" [Handler.rt "notifyChannelsGetForNormalUser"],
   Call.GET "/flashduty-channel-list/:id"
      [Handler.auth, Handler.user, Handler.rt "flashDutyNotifyChannelsGet"],
   Call.GET "/notify-channel-config" [Handler.auth, Handler.user, Handler.rt "notifyChannelGetBy"],
   Call.GET "/notify-channel-config/idents" [Handler.rt "notifyChannelIdentsGet"]]

/-- Lines 234-557 of `Config`: the calls on `pages` after the branch, in order. -/
def pagesCalls : List (Call Handler) :=
  pagesCalls1 ++ pagesCalls2 ++ pagesCalls3 ++ pagesCalls4 ++ pagesCalls5 ++ pagesCalls6 ++
  pagesCalls7 ++ pagesCalls8 ++ pagesCalls9 ++ pagesCalls10 ++ pagesCalls11

/-- Lines 581-668 of `Config`: the calls on `service`. -/
def serviceCalls : List (Call Handler) :=
  [Call.Any "/prometheus/*url" [Handler.rt "dsProxy"],
   Call.POST "/users" [Handler.rt "userAddPost"],
   Call.PUT "/user/:id" [Handler.rt "userProfilePutByService"],
   Call.DELETE "/user/:id" [Handler.rt "userDel"],
   Call.GET "/users" [Handler.rt "userFindAll"],
   Call.GET "/user-groups" [Handler.rt "userGroupGetsByService"],
   Call.GET "/user-group-members" [Handler.rt "userGroupMemberGetsByService"],
   Call.GET "/targets" [Handler.rt "targetGetsByService"],
   Call.GET "/target/extra-meta" [Handler.rt "targetExtendInfoByIdent"],
   Call.POST "/target/list" [Handler.rt "targetGetsByHostFilter"],
   Call.DELETE "/targets" [Handler.rt "targetDelByService"],
   Call.GET "/targets/tags" [Handler.rt "targetGetTags"],
   Call.POST "/targets/tags" [Handler.rt "targetBindTagsByService"],
   Call.DELETE "/targets/tags" [Handler.rt "targetUnbindTagsByService"],
   Call.PUT "/targets/note" [Handler.rt "targetUpdateNoteByService"],
   Call.PUT "/targets/bgid" [Handler.rt "targetUpdateBgidByService"],
   Call.POST "/targets-of-host-query" [Handler.rt "targetsOfHostQuery"],
   Call.POST "/alert-rules" [Handler.rt "alertRuleAddByService"],
   Call.POST "/alert-rule-add" [Handler.rt "alertRuleAddOneByService"],
   Call.DELETE "/alert-rules" [Handler.rt "alertRuleDelByService"],
   Call.PUT "/alert-rule/:arid" [Handler.rt "alertRulePutByService"],
   Call.GET "/alert-rule/:arid" [Handler.rt "alertRuleGet"],
   Call.GET "/alert-rules" [Handler.rt "alertRulesGetByService"],
   Call.GET "/alert-subscribes" [Handler.rt "alertSubscribeGetsByService"],
   Call.GET "/busi-groups" [Handler.rt "busiGroupGetsByService"],
   Call.GET "/datasources" [Handler.rt "datasourceGetsByService"],
   Call.GET "/datasource-ids" [Handler.rt "getDatasourceIds"],
   Call.POST "/server-heartbeat" [Handler.rt "serverHeartbeat"],
   Call.GET "/servers-active" [Handler.rt "serversActive"],
   Call.GET "/recording-rules" [Handler.rt "recordingRuleGetsByService"],
   Call.GET "/alert-mutes" [Handler.rt "alertMuteGets"],
   Call.POST "/alert-mutes" [Handler.rt "alertMuteAddByService"],
   Call.DELETE "/alert-mutes" [Handler.rt "alertMuteDel"],
   Call.GET "/alert-cur-events" [Handler.rt "alertCurEventsList"],
   Call.GET "/alert-cur-events-get-by-rid" [Handler.rt "alertCurEventsGetByRid"],
   Call.GET "/alert-his-events" [Handler.rt "alertHisEventsList"],
   Call.GET "/alert-his-event/:eid" [Handler.rt "alertHisEventGet"],
   Call.GET "/task-tpl/:tid" [Handler.rt "taskTplGetByService"],
   Call.GET "/task-tpls" [Handler.rt "taskTplGetsByService"],
   Call.GET "/task-tpl/statistics" [Handler.rt "taskTplStatistics"],
   Call.GET "/config/:id" [Handler.rt "configGet"],
   Call.GET "/configs" [Handler.rt "configsGet"],
   Call.GET "/config" [Handler.rt "configGetByKey"],
   Call.GET "/all-configs" [Handler.rt "configGetAll"],
   Call.PUT "/configs" [Handler.rt "configsPut"],
   Call.POST "/configs" [Handler.rt "configsPost"],
   Call.DELETE "/configs" [Handler.rt "configsDel"],
   Call.POST "/conf-prop/encrypt" [Handler.rt "confPropEncrypt"],
   Call.POST "/conf-prop/decrypt" [Handler.rt "confPropDecrypt"],
   Call.GET "/statistic" [Handler.rt "statistic"],
   Call.GET "/notify-tpls" [Handler.rt "notifyTplGets"],
   Call.POST "/task-record-add" [Handler.rt "taskRecordAdd"],
   Call.GET "/user-variable/decrypt" [Handler.rt "userVariableGetDecryptByService"],
   Call.GET "/targets-of-alert-rule" [Handler.rt "targetsOfAlertRule"],
   Call.POST "/notify-record" [Handler.rt "notificationRecordAdd"],
   Call.GET "/alert-cur-events-del-by-hash" [Handler.rt "alertCurEventDelByHash"],
   Call.POST "/center/heartbeat" [Handler.rt "heartbeat"],
   Call.GET "/es-index-pattern-list" [Handler.rt "esIndexPatternGetList"],
   Call.GET "/notify-rules" [Handler.rt "notifyRulesGetByService"],
   Call.GET "/notify-channels" [Handler.rt "notifyChannelConfigGets"],
   Call.GET "/message-templates" [Handler.rt "messageTemplateGets"],
   Call.GET "/event-pipelines" [Handler.rt "eventPipelinesListByService"]]

/-- Lines 172-174 of `Config`: the static files, unless they are served from disk. -/
def Router.configStatic (rt : Router) (r : gin.Engine Handler) : gin.Engine Handler :=
  if !rt.Center.UseFileAssets then r.StaticFS "/pub" (Handler.staticFS "/pub") else r

/-- Lines 176-558 of `Config`: the group `pages`. -/
def Router.configPages (rt : Router) (r : gin.Engine Handler) : gin.Engine Handler :=
  let pages := r.Group "/api/n9e"
  let r :=
    if rt.Center.AnonymousAccess.PromQuerier then pages.calls r queryCallsAnonymous
    else pages.calls r queryCallsAuthenticated
  pages.calls r pagesCalls

/-- Lines 575-670 of `Config`: the group `service`. -/
def Router.configService (rt : Router) (r : gin.Engine Handler) : gin.Engine Handler :=
  if rt.HTTP.APIForService.Enable then
    let service := r.Group "/v1/n9e"
    let service :=
      if rt.HTTP.APIForService.BasicAuth.length > 0 then
        service.Use [Handler.BasicAuth rt.HTTP.APIForService.BasicAuth]
      else service
    service.calls r serviceCalls
  else r

/-- Lines 672-680 of `Config`: the group `heartbeat`. -/
def Router.configHeartbeat (rt : Router) (r : gin.Engine Handler) : gin.Engine Handler :=
  if rt.HTTP.APIForAgent.Enable then
    let heartbeat := r.Group "/v1/n9e"
    let heartbeat :=
      if rt.HTTP.APIForAgent.BasicAuth.length > 0 then
        heartbeat.Use [Handler.BasicAuth rt.HTTP.APIForAgent.BasicAuth]
      else heartbeat
    heartbeat.POST r "/heartbeat" [Handler.rt "heartbeat"]
  else r

/-- The method `Config` of the center: the calls on `r` of the source in order, with
the blocks of the groups `pages`, `service` and `heartbeat`. -/
def Router.Config (rt : Router) (r : gin.Engine Handler) : gin.Engine Handler :=
  let r := r.Use [Handler.stat]
  let r := r.Use [Handler.languageDetector rt.Center.I18NHeaderKey]
  let r := r.Use [Handler.Recovery]
  let r := rt.configStatic r
  let r := rt.configPages r
  let r := r.GET "/api/n9e/versions" [Handler.versions]
  let r := rt.configService r
  let r := rt.configHeartbeat r
  r.NoRoute [Handler.noRoute]

/-- The routes a call of `Config` adds to the table of the engine. -/
def Router.registered (rt : Router) (r : gin.Engine Handler) : List (gin.RouteInfo Handler) :=
  (rt.Config r).routes.drop r.routes.length

end center

/-! ## The identity registry of the specification (section 4.2) -/

namespace registry

/-- Modelled from the spec: the Identity Record of section 3, an agent identifier,
the last-heartbeat timestamp and the metadata payload; the code that holds it
(`pushgw/idents`) is not among the source files. -/
structure IdentityRecord where
  identifier : String
  lastHeartbeat : Int
  metadata : List (String × String)
deriving DecidableEq, Repr

/-- Modelled from the spec: the Identity Registry, a map keyed by the identifier, as
the list of its records. -/
abbrev Registry := List IdentityRecord

inductive Error
  | InvalidIdentity
deriving DecidableEq, Repr

/-- Modelled from the spec: `Lookup(identifier)` of section 4.2, a pure read of the
record stored under the identifier. -/
def Lookup (reg : Registry) (identifier : String) : Option IdentityRecord :=
  match reg with
  | [] => none
  | r :: rest => if r.identifier = identifier then some r else Lookup rest identifier

/-- Replace the records stored under the key of `new` by `new`. -/
def overwrite (reg : Registry) (new : IdentityRecord) : Registry :=
  reg.map fun r => if r.identifier = new.identifier then new else r

/-- Modelled from the spec: `Heartbeat(identifier, metadata, now)` of section 4.2.  It
fails with `InvalidIdentity` on the empty identifier and leaves the registry as it is;
otherwise it inserts the record, or overwrites the stored one unless that carries a
greater timestamp (last writer by timestamp wins; on equal timestamps the heartbeat
observed later wins). -/
def Heartbeat (reg : Registry) (identifier : String) (metadata : List (String × String))
    (now : Int) : Except Error Registry :=
  if identifier = "" then Except.error Error.InvalidIdentity
  else
    match Lookup reg identifier with
    | none => Except.ok (reg ++ [{ identifier := identifier, lastHeartbeat := now,
                                   metadata := metadata }])
    | some old =>
      if now < old.lastHeartbeat then Except.ok reg
      else Except.ok (overwrite reg { identifier := identifier, lastHeartbeat := now,
                                      metadata := metadata })

/-- Modelled from the spec: `Sweep(now, ttl)` of sections 4.2 and 8, which removes the
records with `last-heartbeat < now - ttl`. -/
def Sweep (reg : Registry) (now ttl : Int) : Registry :=
  reg.filter fun r => !decide (r.lastHeartbeat < now - ttl)

/-- Modelled from the spec: `ActiveSince(cutoff)` of section 4.2, the records with
last-heartbeat at or after the cutoff. -/
def ActiveSince (reg : Registry) (cutoff : Int) : List IdentityRecord :=
  reg.filter fun r => decide (cutoff ≤ r.lastHeartbeat)

end registry

/-! ## Vocabulary of the statements about the route table of the push gateway -/

namespace pushgw

/-- Whether the function is a basic-auth middleware, the only authentication
middleware `Config` installs. -/
def Handler.isBasicAuth : Handler → Bool
  | Handler.BasicAuth _ => true
  | _ => false

/-- Method, path and business handler of a route. -/
def triple (x : gin.RouteInfo Handler) : gin.Method × String × Option Handler :=
  (x.Method, x.Path, x.handler)

/-- The route with the basic-auth middleware taken out of the functions given at
its registration. -/
def withoutAuth (x : gin.RouteInfo Handler) : gin.RouteInfo Handler :=
  { x with Handlers := x.Handlers.filter fun h => !h.isBasicAuth }

/-- The paths registered in the two branches on `APIForAgent.BasicAuth`. -/
def agentPaths : List String :=
  ["/opentsdb/put", "/openfalcon/push", "/prometheus/v1/write", "/proxy/v1/write",
   "/v1/n9e/edge/heartbeat", "/v1/n9e/heartbeat"]

/-- The paths of the datadog routes. -/
def datadogPaths : List String :=
  ["/datadog/api/v1/series", "/datadog/api/v1/check_run", "/datadog/api/v1/validate",
   "/datadog/api/v1/metadata", "/datadog/intake/"]

/-- The routes that take metric payloads: path and business handler. -/
def ingestionRoutes : List (String × Handler) :=
  [("/opentsdb/put", Handler.openTSDBPut), ("/openfalcon/push", Handler.falconPush),
   ("/prometheus/v1/write", Handler.remoteWrite), ("/proxy/v1/write", Handler.proxyRemoteWrite),
   ("/datadog/api/v1/series", Handler.datadogSeries), ("/datadog/intake/", Handler.datadogIntake)]

/-- The router with `HTTP.APIForAgent.BasicAuth` replaced. -/
def Router.withAgentAuth (rt : Router) (agent : gin.Accounts) : Router :=
  { rt with HTTP := { rt.HTTP with APIForAgent := { rt.HTTP.APIForAgent with BasicAuth := agent } } }

/-- The middleware `gin.BasicAuth(accounts)` when the table `m` has an entry, nothing
otherwise. -/
def authIfAny (m accounts : gin.Accounts) : List Handler :=
  if m.length > 0 then [Handler.BasicAuth accounts] else []

/-- An engine without middleware and without routes, as `gin.New()` returns it. -/
def freshEngine : gin.Engine Handler :=
  { Handlers := [], routes := [] }

/-- A configuration with the agent API on, one agent account, two service accounts of
which one has the user name of the agent account, and a center address. -/
def sampleRouter : Router :=
  New { APIForAgent := { BasicAuth := [("agent", "a1")], Enable := true },
        APIForService := { BasicAuth := [("agent", "s1"), ("edge", "s2")], Enable := true } }
    ⟨0⟩ ⟨0⟩ ⟨1⟩ ⟨2⟩ ⟨3⟩ ⟨4⟩ ⟨5⟩
    { CenterApi := { Addrs := ["http://center:17000"] }, IsCenter := false }

/-- The configuration of `sampleRouter` with the agent API off. -/
def disabledRouter : Router :=
  { sampleRouter with
    HTTP := { sampleRouter.HTTP with APIForAgent := { BasicAuth := [("agent", "a1")], Enable := false } } }

/-- The configuration of `sampleRouter` without agent accounts. -/
def openRouter : Router :=
  sampleRouter.withAgentAuth []

end pushgw


/-! ## Vocabulary of the statements about the route table of the center -/

namespace gin

/-- The routes a call adds to the table: one for each of its methods. -/
def RouterGroup.expandCall {H : Type} (g : RouterGroup H) (c : Call H) : List (RouteInfo H) :=
  c.methods.map fun m =>
    { Method := m, Path := joinPaths g.basePath c.relativePath, Group := g.Handlers,
      Handlers := c.handlers }

/-- The routes a sequence of calls adds to the table. -/
def RouterGroup.expand {H : Type} (g : RouterGroup H) (cs : List (Call H)) :
    List (RouteInfo H) :=
  cs.flatMap g.expandCall

end gin

namespace center
open gin

/-- Whether the function is a middleware: every function but the business handlers
(method values `rt.name`, the function literals and the file handler). -/
def Handler.isMiddleware : Handler → Bool
  | Handler.rt _ => false
  | Handler.versions => false
  | Handler.noRoute => false
  | Handler.staticFS _ => false
  | _ => true

/-- The middlewares that read what `rt.auth()` stores: `rt.user()` and `rt.admin()`. -/
def Handler.needsAuth : Handler → Bool
  | Handler.user => true
  | Handler.admin => true
  | _ => false

/-- The middlewares that read what `rt.user()` stores: `rt.perm(...)`, `rt.bgro()`,
`rt.bgrw()` and `rt.userGroupWrite()`. -/
def Handler.needsUser : Handler → Bool
  | Handler.perm _ => true
  | Handler.bgro => true
  | Handler.bgrw => true
  | Handler.userGroupWrite => true
  | _ => false

def Handler.isAuth : Handler → Bool
  | Handler.auth => true
  | _ => false

def Handler.isUser : Handler → Bool
  | Handler.user => true
  | _ => false

/-- Whether the function is one of the access-control middlewares. -/
def Handler.isAccessControl (h : Handler) : Bool :=
  h.isAuth || h.needsAuth || h.needsUser

/-- The order of the access-control middlewares in a chain: wherever `rt.user()` or
`rt.admin()` stands, `rt.auth()` stands before it, and wherever `rt.perm(...)`,
`rt.bgro()`, `rt.bgrw()` or `rt.userGroupWrite()` stands, `rt.auth()` and after it
`rt.user()` stand before it. -/
def AccessOrdered (chain : List Handler) : Prop :=
  ∀ pre h post, chain = pre ++ h :: post →
    (h.needsAuth = true → Handler.auth ∈ pre) ∧
    (h.needsUser = true → ∃ a b c, pre = a ++ Handler.auth :: (b ++ Handler.user :: c))

/-- One pass over a chain that checks the order; `seenAuth` says that `rt.auth()` has
been passed and `seenUser` that `rt.user()` has been passed after it. -/
def accessOrderedFrom (seenAuth seenUser : Bool) : List Handler → Bool
  | [] => true
  | h :: rest =>
    (!h.needsAuth || seenAuth) && (!h.needsUser || seenUser) &&
      accessOrderedFrom (seenAuth || h.isAuth) (seenUser || (seenAuth && h.isUser)) rest

/-- The business handler is the last function and every function before it is a
middleware. -/
def BusinessLast (handlers : List Handler) : Prop :=
  ∃ init b, handlers = init ++ [b] ∧ b.isMiddleware = false ∧ ∀ m ∈ init, m.isMiddleware = true

/-- The check of `BusinessLast` in one pass. -/
def businessLast : List Handler → Bool
  | [] => false
  | [b] => !b.isMiddleware
  | m :: rest => m.isMiddleware && businessLast rest

/-- Both checks on the functions given to a call. -/
def wellOrdered (c : Call Handler) : Bool :=
  accessOrderedFrom false false c.handlers && businessLast c.handlers

/-- Methods, path and business handler of a call. -/
def callKey (c : Call Handler) : List Method × String × Option Handler :=
  (c.methods, c.relativePath, c.handlers.getLast?)

/-- The middleware of the root group after the three `r.Use` calls of `Config`. -/
def Router.baseMiddleware (rt : Router) (r : gin.Engine Handler) : List Handler :=
  r.Handlers ++ [Handler.stat, Handler.languageDetector rt.Center.I18NHeaderKey, Handler.Recovery]

/-- The middleware `gin.BasicAuth(m)` when the table `m` has an entry, nothing
otherwise. -/
def authIfAny (m : gin.Accounts) : List Handler :=
  if m.length > 0 then [Handler.BasicAuth m] else []

/-- An engine without middleware and without routes, as `gin.New()` returns it. -/
def freshEngine : gin.Engine Handler :=
  { Handlers := [], routes := [] }

/-- A configuration of the center with anonymous access to the queriers off. -/
def authenticatedRouter : Router :=
  New { APIForAgent := { BasicAuth := [], Enable := true },
        APIForService := { BasicAuth := [("edge", "s2")], Enable := true } }
    { AnonymousAccess := { PromQuerier := false, AlertDetail := false },
      UseFileAssets := false, I18NHeaderKey := "X-Language" }
    ⟨0⟩ ⟨0⟩ ⟨0⟩ ⟨1⟩ ⟨2⟩ ⟨3⟩ ⟨0⟩ ⟨4⟩
    { CenterApi := { Addrs := [] }, IsCenter := true } ⟨5⟩ ⟨6⟩ ⟨7⟩ ⟨8⟩ ⟨9⟩ ⟨10⟩

/-- The configuration of `authenticatedRouter` with anonymous access to the queriers
on. -/
def anonymousRouter : Router :=
  { authenticatedRouter with
    Center := { AnonymousAccess := { PromQuerier := true, AlertDetail := false },
                UseFileAssets := false, I18NHeaderKey := "X-Language" } }

end center

/-! ## The pipeline of the specification: adapters, normalizer, dispatcher -/

namespace pipeline

/-- Modelled from the spec: one `(timestamp, value)` point of a RawSample (section 3);
the timestamp may be missing, the value is the bit pattern of the 64-bit float.  The
adapters, the normalizer and the dispatcher are not among the source files. -/
structure Point where
  timestamp : Option Int
  value : Nat
deriving DecidableEq, Repr

/-- Modelled from the spec: the RawSample of section 3, a metric name, tags, points
and the source identifier. -/
structure RawSample where
  metric : String
  tags : List (String × String)
  points : List Point
  source : String
deriving DecidableEq, Repr

/-- Modelled from the spec: the CanonicalSample of section 3; an empty `target` and
an absent `busiGroup` are the empty attribution. -/
structure CanonicalSample where
  metric : String
  labels : List (String × String)
  timestamp : Int
  value : Nat
  target : String
  busiGroup : Option String
deriving DecidableEq, Repr

/-! ### Protocol adapters (section 4.1) -/

/-- Modelled from the spec: the four wire formats of section 2. -/
inductive Protocol
  | remoteWrite
  | linePut
  | jsonPush
  | jsonIntake
deriving DecidableEq, Repr

inductive DecodePolicy
  | atomic
  | bestEffort
deriving DecidableEq, Repr

/-- Modelled from the spec: the decode policy of section 4.1, atomic for the
remote-write and JSON-intake formats and best-effort for the line-based and legacy
push formats. -/
def Protocol.policy : Protocol → DecodePolicy
  | Protocol.remoteWrite => DecodePolicy.atomic
  | Protocol.jsonIntake => DecodePolicy.atomic
  | Protocol.linePut => DecodePolicy.bestEffort
  | Protocol.jsonPush => DecodePolicy.bestEffort

/-- Modelled from the spec: what `Decode` returns, the samples, the number of decode
errors counted and the `DecodeError` reported to the caller, if any. -/
structure DecodeResult where
  samples : List RawSample
  decodeErrors : Nat
  error : Option String
deriving DecidableEq, Repr

/-- Modelled from the spec: `Decode` of section 4.1 on a request of records (lines or
entries), with the parser of one record of the wire format as a parameter (`none` is
a malformed record).  An atomic format with a malformed record fails the request and
emits nothing; a best-effort format skips and counts the malformed records. -/
def Decode (p : Protocol) (parse : String → Option RawSample) (records : List String) :
    DecodeResult :=
  let bad := (records.filter fun rec => (parse rec).isNone).length
  match p.policy with
  | DecodePolicy.atomic =>
    if bad = 0 then { samples := records.filterMap parse, decodeErrors := 0, error := none }
    else { samples := [], decodeErrors := bad, error := some "malformed record" }
  | DecodePolicy.bestEffort =>
    { samples := records.filterMap parse, decodeErrors := bad, error := none }

inductive Response
  | success
  | badRequest
deriving DecidableEq, Repr

/-- Modelled from the spec: the answer of an ingestion entry point (section 6), 2xx
on success and 4xx on a decode failure. -/
def respond (res : DecodeResult) : Response :=
  match res.error with
  | none => Response.success
  | some _ => Response.badRequest

/-! ### Normalizer (section 4.3) -/

/-- Modelled from the spec: the result of the relabel hook `Apply(sample) -> (sample,
keep)` of section 6, or a runtime fault inside it. -/
inductive HookResult
  | ok (sample : CanonicalSample) (keep : Bool)
  | fault
deriving DecidableEq, Repr

/-- Modelled from the spec: the attribution of a source identifier (section 4.3).  The
target lookup `Resolve` gives the target and its business group; an identifier only
the identity registry knows is attributed to itself; without a match the attribution
is empty. -/
def attribution (identityLookup : String → Option registry.IdentityRecord)
    (targetLookup : String → Option (String × Option String)) (source : String) :
    String × Option String :=
  match targetLookup source with
  | some (target, group) => (target, group)
  | none =>
    match identityLookup source with
    | some rec => (rec.identifier, none)
    | none => ("", none)

/-- Modelled from the spec: the timestamp rule of section 4.3.  A missing timestamp
becomes the ingestion time; a timestamp that is zero or beyond `now + skew` is
rejected (`none`, the `ClockSkew` condition). -/
def resolveTimestamp (now skew : Int) (timestamp : Option Int) : Option Int :=
  match timestamp with
  | none => some now
  | some t => if t = 0 ∨ now + skew < t then none else some t

/-- Modelled from the spec: the hook is invoked once per sample after attribution; it
may rewrite the sample or signal to drop it, and a fault inside it passes the sample
through unmodified. -/
def applyHook (hook : CanonicalSample → HookResult) (s : CanonicalSample) :
    Option CanonicalSample :=
  match hook s with
  | HookResult.ok s' keep => if keep then some s' else none
  | HookResult.fault => some s

/-- The sample of one point after attribution, before the hook; `none` on clock skew. -/
def canonical (identityLookup : String → Option registry.IdentityRecord)
    (targetLookup : String → Option (String × Option String)) (now skew : Int)
    (raw : RawSample) (pt : Point) : Option CanonicalSample :=
  (resolveTimestamp now skew pt.timestamp).map fun ts =>
    { metric := raw.metric, labels := raw.tags, timestamp := ts, value := pt.value,
      target := (attribution identityLookup targetLookup raw.source).1,
      busiGroup := (attribution identityLookup targetLookup raw.source).2 }

/-- Modelled from the spec: `Normalize` of section 4.3, one CanonicalSample per data
point that passes the timestamp rule and that the hook keeps. -/
def Normalize (raws : List RawSample) (identityLookup : String → Option registry.IdentityRecord)
    (targetLookup : String → Option (String × Option String))
    (relabelHook : CanonicalSample → HookResult) (now skew : Int) : List CanonicalSample :=
  raws.flatMap fun raw =>
    raw.points.filterMap fun pt =>
      (canonical identityLookup targetLookup now skew raw pt).bind (applyHook relabelHook)

/-- The hook that keeps every sample as it is. -/
def noopHook (s : CanonicalSample) : HookResult :=
  HookResult.ok s true

/-- Whether the hook keeps the sample (a fault passes it through). -/
def hookKeeps (hook : CanonicalSample → HookResult) (s : CanonicalSample) : Bool :=
  (applyHook hook s).isSome

/-! ### Writer dispatcher (section 4.4) -/

abbrev Batch := List CanonicalSample

inductive Health
  | healthy
  | degraded
  | failed
deriving DecidableEq, Repr

/-- Modelled from the spec: a Writer Target of sections 3 and 4.4, a named sink with a
bounded queue (oldest batch first), the counter of dropped batches and the health
state. -/
structure WriterTarget where
  name : String
  capacity : Nat
  queue : List Batch
  dropped : Nat
  health : Health
deriving DecidableEq, Repr

/-- Modelled from the spec: the enqueue step of `Dispatch` on one target (section
4.4).  With capacity left the batch is appended; on a full queue the oldest batch is
dropped and the counter incremented before the new batch is admitted.  The step is a
total function: it never waits for the worker. -/
def WriterTarget.enqueue (t : WriterTarget) (b : Batch) : WriterTarget :=
  if t.queue.length < t.capacity then { t with queue := t.queue ++ [b] }
  else { t with queue := t.queue.tail ++ [b], dropped := t.dropped + 1 }

/-- Modelled from the spec: `Dispatch` of section 4.4, the fan-out of a batch to every
Writer Target. -/
def Dispatch (targets : List WriterTarget) (b : Batch) : List WriterTarget :=
  targets.map fun t => t.enqueue b

end pipeline
/-! ## Theorems: the route table of the push gateway -/

namespace pushgw
open gin

theorem registered_eq (rt : Router) (r : gin.Engine Handler) :
    rt.registered r =
      { Method := Method.POST, Path := "/v1/n9e/target-update",
        Group := r.Handlers ++
          authIfAny rt.HTTP.APIForService.BasicAuth rt.HTTP.APIForService.BasicAuth,
        Handlers := [Handler.targetUpdate] } ::
      (if rt.HTTP.APIForAgent.Enable = true then
        ([(Method.POST, "/datadog/api/v1/series", Handler.datadogSeries),
          (Method.POST, "/datadog/api/v1/check_run", Handler.datadogCheckRun),
          (Method.GET, "/datadog/api/v1/validate", Handler.datadogValidate),
          (Method.POST, "/datadog/api/v1/metadata", Handler.datadogMetadata),
          (Method.POST, "/datadog/intake/", Handler.datadogIntake)].map
            fun e => { Method := e.1, Path := e.2.1, Group := r.Handlers ++ [Handler.stat],
                       Handlers := [e.2.2] }) ++
        (([("/opentsdb/put", Handler.openTSDBPut),
           ("/openfalcon/push", Handler.falconPush),
           ("/prometheus/v1/write", Handler.remoteWrite),
           ("/proxy/v1/write", Handler.proxyRemoteWrite),
           ("/v1/n9e/edge/heartbeat", Handler.heartbeat)] ++
          (if rt.Ctx.CenterApi.Addrs.length > 0 then [("/v1/n9e/heartbeat", Handler.heartbeat)]
           else [])).map
            fun e => { Method := Method.POST, Path := e.1, Group := r.Handlers ++ [Handler.stat],
                       Handlers := authIfAny rt.HTTP.APIForAgent.BasicAuth rt.accounts ++ [e.2] })
       else []) := by
  unfold Router.registered Router.Config
  by_cases hs : rt.HTTP.APIForService.BasicAuth.length > 0 <;>
  by_cases he : rt.HTTP.APIForAgent.Enable = true <;>
  by_cases ha : rt.HTTP.APIForAgent.BasicAuth.length > 0 <;>
  by_cases hc : rt.Ctx.CenterApi.Addrs.length > 0 <;>
  simp [hs, he, ha, hc, authIfAny, Engine.Group, RouterGroup.Use, RouterGroup.POST,
    RouterGroup.handle, Engine.Use, Engine.POST, Engine.GET, Engine.handle, joinPaths]

/-- The route table after `Config` is the table before it followed by the routes
`Config` registers. -/
theorem Config_routes (rt : Router) (r : gin.Engine Handler) :
    (rt.Config r).routes = r.routes ++ rt.registered r := by
  unfold Router.registered Router.Config
  by_cases hs : rt.HTTP.APIForService.BasicAuth.length > 0 <;>
  by_cases he : rt.HTTP.APIForAgent.Enable = true <;>
  by_cases ha : rt.HTTP.APIForAgent.BasicAuth.length > 0 <;>
  by_cases hc : rt.Ctx.CenterApi.Addrs.length > 0 <;>
  simp [hs, he, ha, hc, Engine.Group, RouterGroup.Use, RouterGroup.POST,
    RouterGroup.handle, Engine.Use, Engine.POST, Engine.GET, Engine.handle]

/-- C1: `Config` registers the POST ingestion endpoints `/prometheus/v1/write`,
`/opentsdb/put`, `/openfalcon/push`, `/datadog/api/v1/series` and `/datadog/intake/`,
each bound to the handler of its protocol, exactly when `HTTP.APIForAgent.Enable` is
true, whatever the basic-auth tables and the center addresses are; when it is false
the only route registered is POST `/v1/n9e/target-update`. -/
theorem config_ingestion_routes_iff_enable (rt : Router) (r : gin.Engine Handler) :
    (∀ e ∈ [("/prometheus/v1/write", Handler.remoteWrite), ("/opentsdb/put", Handler.openTSDBPut),
            ("/openfalcon/push", Handler.falconPush),
            ("/datadog/api/v1/series", Handler.datadogSeries),
            ("/datadog/intake/", Handler.datadogIntake)],
      ((∃ x ∈ rt.registered r, x.Method = Method.POST ∧ x.Path = e.1 ∧ x.handler = some e.2) ↔
        rt.HTTP.APIForAgent.Enable = true) ∧
      ((∃ x ∈ rt.registered r, x.Path = e.1) ↔ rt.HTTP.APIForAgent.Enable = true)) ∧
    (rt.HTTP.APIForAgent.Enable = false →
      (rt.registered r).map triple =
        [(Method.POST, "/v1/n9e/target-update", some Handler.targetUpdate)]) := by
  rw [registered_eq]
  by_cases he : rt.HTTP.APIForAgent.Enable = true <;>
  by_cases hc : rt.Ctx.CenterApi.Addrs.length > 0 <;>
  by_cases ha : rt.HTTP.APIForAgent.BasicAuth.length > 0 <;>
  simp [he, hc, ha, triple, authIfAny, RouteInfo.handler, RouteInfo.chain]

/-- C1 at two configurations: with the agent API off only the target-update route is
registered, with it on the remote-write route is. -/
theorem config_ingestion_routes_iff_enable_witness :
    (disabledRouter.registered freshEngine).map triple =
        [(Method.POST, "/v1/n9e/target-update", some Handler.targetUpdate)] ∧
      ∃ x ∈ sampleRouter.registered freshEngine, x.Method = Method.POST ∧
        x.Path = "/prometheus/v1/write" ∧ x.handler = some Handler.remoteWrite :=
  ⟨(config_ingestion_routes_iff_enable disabledRouter freshEngine).2 (by decide),
   (((config_ingestion_routes_iff_enable sampleRouter freshEngine).1
      ("/prometheus/v1/write", Handler.remoteWrite) (by simp)).1).2 (by decide)⟩

/-- C2: with the agent API enabled, `Config` registers POST `/opentsdb/put`,
`/openfalcon/push`, `/prometheus/v1/write`, `/proxy/v1/write` and
`/v1/n9e/edge/heartbeat`, and POST `/v1/n9e/heartbeat` when `Ctx.CenterApi.Addrs` is
non-empty, behind the middleware of the engine and `stat`: with the basic-auth
middleware of the merged table immediately before the handler when
`APIForAgent.BasicAuth` is non-empty, and with the handler alone when it is empty,
whatever `APIForService.BasicAuth` holds.  The routes on these paths are exactly
those, in both branches; each carries the basic-auth middleware if and only if
`APIForAgent.BasicAuth` is non-empty; and replacing `APIForAgent.BasicAuth` by any
other table leaves the (method, path, handler) triples as they are and changes the
routes by the basic-auth middleware only. -/
theorem agent_routes_basic_auth_iff (rt : Router) (r : gin.Engine Handler)
    (hen : rt.HTTP.APIForAgent.Enable = true) :
    (∀ e ∈ [("/opentsdb/put", Handler.openTSDBPut), ("/openfalcon/push", Handler.falconPush),
            ("/prometheus/v1/write", Handler.remoteWrite),
            ("/proxy/v1/write", Handler.proxyRemoteWrite),
            ("/v1/n9e/edge/heartbeat", Handler.heartbeat),
            ("/v1/n9e/heartbeat", Handler.heartbeat)],
      (e.1 = "/v1/n9e/heartbeat" → rt.Ctx.CenterApi.Addrs ≠ []) →
      (rt.HTTP.APIForAgent.BasicAuth ≠ [] →
        ({ Method := Method.POST, Path := e.1, Group := r.Handlers ++ [Handler.stat],
           Handlers := [Handler.BasicAuth rt.accounts, e.2] } : RouteInfo Handler) ∈
          rt.registered r) ∧
      (rt.HTTP.APIForAgent.BasicAuth = [] →
        ({ Method := Method.POST, Path := e.1, Group := r.Handlers ++ [Handler.stat],
           Handlers := [e.2] } : RouteInfo Handler) ∈ rt.registered r)) ∧
    (((rt.registered r).filter fun x => decide (x.Path ∈ agentPaths)).map triple =
      [(Method.POST, "/opentsdb/put", some Handler.openTSDBPut),
       (Method.POST, "/openfalcon/push", some Handler.falconPush),
       (Method.POST, "/prometheus/v1/write", some Handler.remoteWrite),
       (Method.POST, "/proxy/v1/write", some Handler.proxyRemoteWrite),
       (Method.POST, "/v1/n9e/edge/heartbeat", some Handler.heartbeat)] ++
      (if rt.Ctx.CenterApi.Addrs = [] then []
       else [(Method.POST, "/v1/n9e/heartbeat", some Handler.heartbeat)])) ∧
    (∀ x ∈ rt.registered r, x.Path ∈ agentPaths →
      ((∃ h, x.Handlers = [Handler.BasicAuth rt.accounts, h] ∧ h.isBasicAuth = false) ↔
        rt.HTTP.APIForAgent.BasicAuth ≠ []) ∧
      ((∃ h, x.Handlers = [h] ∧ h.isBasicAuth = false) ↔ rt.HTTP.APIForAgent.BasicAuth = []) ∧
      x.Group = r.Handlers ++ [Handler.stat]) ∧
    (∀ agent : gin.Accounts,
      ((rt.withAgentAuth agent).registered r).map triple = (rt.registered r).map triple ∧
      ((rt.withAgentAuth agent).registered r).map withoutAuth =
        (rt.registered r).map withoutAuth) := by
  refine ⟨?_, ?_, ?_, ?_⟩
  · rw [registered_eq]
    rcases hc : rt.Ctx.CenterApi.Addrs with _ | ⟨a, l⟩ <;>
    rcases hag : rt.HTTP.APIForAgent.BasicAuth with _ | ⟨e, l⟩ <;>
    simp [hen, authIfAny]
  · rw [registered_eq]
    rcases hc : rt.Ctx.CenterApi.Addrs with _ | ⟨a, l⟩ <;>
    rcases hag : rt.HTTP.APIForAgent.BasicAuth with _ | ⟨e, l⟩ <;>
    simp [hen, authIfAny, agentPaths, triple, List.filter_cons, RouteInfo.handler,
      RouteInfo.chain]
  · rw [registered_eq]
    by_cases hc : rt.Ctx.CenterApi.Addrs.length > 0 <;>
    rcases hag : rt.HTTP.APIForAgent.BasicAuth with _ | ⟨e, l⟩ <;>
    simp [hen, hc, hag, authIfAny, agentPaths, Handler.isBasicAuth]
  · intro agent
    rw [registered_eq, registered_eq]
    by_cases hc : rt.Ctx.CenterApi.Addrs.length > 0 <;>
    rcases hag : rt.HTTP.APIForAgent.BasicAuth with _ | ⟨e, l⟩ <;>
    rcases agent with _ | ⟨e', l'⟩ <;>
    simp [hen, hc, hag, authIfAny, triple, withoutAuth, Router.withAgentAuth,
      RouteInfo.handler, RouteInfo.chain, Handler.isBasicAuth]

/-- C2 at two configurations.  Without agent accounts and with service accounts the
route `/opentsdb/put` is registered with its handler alone; with agent accounts it is
registered with the basic-auth middleware of the merged table before the handler. -/
theorem agent_routes_basic_auth_iff_witness :
    (openRouter.HTTP.APIForService.BasicAuth ≠ [] ∧
      ({ Method := Method.POST, Path := "/opentsdb/put", Group := [Handler.stat],
         Handlers := [Handler.openTSDBPut] } : RouteInfo Handler) ∈
        openRouter.registered freshEngine) ∧
    ({ Method := Method.POST, Path := "/opentsdb/put", Group := [Handler.stat],
       Handlers := [Handler.BasicAuth sampleRouter.accounts, Handler.openTSDBPut] } :
        RouteInfo Handler) ∈ sampleRouter.registered freshEngine :=
  ⟨⟨by decide,
    (((agent_routes_basic_auth_iff openRouter freshEngine (by decide)).1
      ("/opentsdb/put", Handler.openTSDBPut) (by simp)) (by decide)).2 (by decide)⟩,
   (((agent_routes_basic_auth_iff sampleRouter freshEngine (by decide)).1
      ("/opentsdb/put", Handler.openTSDBPut) (by simp)) (by decide)).1 (by decide)⟩

end pushgw

/-! ## Theorems: the merged account table -/

theorem mapGet_mapSet_self (m : List (String × String)) (k v : String) :
    mapGet (mapSet m k v) k = some v := by
  induction m with
  | nil => simp [mapSet, mapGet]
  | cons e rest ih =>
    obtain ⟨k', v'⟩ := e
    by_cases h : k' = k <;> simp [mapSet, mapGet, h, ih]

theorem mapGet_mapSet_ne (m : List (String × String)) (k v u : String) (h : k ≠ u) :
    mapGet (mapSet m k v) u = mapGet m u := by
  induction m with
  | nil => simp [mapSet, mapGet, h]
  | cons e rest ih =>
    obtain ⟨k', v'⟩ := e
    by_cases hk : k' = k
    · subst hk
      simp [mapSet, mapGet, h]
    · by_cases hu : k' = u
      · subst hu
        simp [mapSet, mapGet, hk]
      · simp [mapSet, mapGet, hk, hu, ih]

namespace pushgw
open gin

/-- A user name absent from the agent table and from the table so far is absent after
the copy loop. -/
theorem copy_absent (agent accounts : gin.Accounts) (u : String)
    (ha : mapGet agent u = none) (hacc : mapGet accounts u = none) :
    mapGet (agent.foldl (fun accounts e => mapSet accounts e.1 e.2) accounts) u = none := by
  induction agent generalizing accounts with
  | nil => simpa using hacc
  | cons e rest ih =>
    obtain ⟨k, v⟩ := e
    by_cases hk : k = u
    · simp [mapGet, hk] at ha
    · simp only [mapGet, hk, if_false] at ha
      simp only [List.foldl_cons]
      exact ih _ ha (by rw [mapGet_mapSet_ne _ _ _ _ hk]; exact hacc)

/-- The merge loop keeps every entry the table already has. -/
theorem mergeService_keeps (accounts service : gin.Accounts) (u q : String)
    (h : mapGet accounts u = some q) : mapGet (mergeService accounts service) u = some q := by
  induction service generalizing accounts with
  | nil => simpa [mergeService] using h
  | cons e rest ih =>
    obtain ⟨k, v⟩ := e
    simp only [mergeService, List.foldl_cons]
    by_cases hk : (mapGet accounts k).isSome = true
    · rw [if_pos hk]
      exact ih accounts h
    · rw [if_neg hk]
      refine ih _ ?_
      have hne : k ≠ u := by
        intro hku
        subst hku
        simp [h] at hk
      rw [mapGet_mapSet_ne _ _ _ _ hne]
      exact h

/-- The merge loop adds the service entry of a user name the table does not have. -/
theorem mergeService_adds (accounts service : gin.Accounts) (u p : String)
    (hacc : mapGet accounts u = none) (hs : mapGet service u = some p) :
    mapGet (mergeService accounts service) u = some p := by
  induction service generalizing accounts with
  | nil => simp [mapGet] at hs
  | cons e rest ih =>
    obtain ⟨k, v⟩ := e
    simp only [mergeService, List.foldl_cons]
    by_cases hk : k = u
    · subst hk
      simp only [mapGet, if_true, Option.some.injEq] at hs
      subst hs
      simp only [hacc, Option.isSome_none, Bool.false_eq_true, if_false]
      exact mergeService_keeps _ rest k v (mapGet_mapSet_self _ _ _)
    · simp only [mapGet, hk, if_false] at hs
      by_cases hsome : (mapGet accounts k).isSome = true
      · rw [if_pos hsome]
        exact ih accounts hacc hs
      · rw [if_neg hsome]
        exact ih _ (by rw [mapGet_mapSet_ne _ _ _ _ hk]; exact hacc) hs

/-- C3 (as amended): when `HTTP.APIForAgent.BasicAuth` is non-empty, every agent route
carries `gin.BasicAuth` of the merged table, and for every user name `u` with
password `p` in `HTTP.APIForService.BasicAuth` that is not a user name of
`HTTP.APIForAgent.BasicAuth` the merged table has `accounts[u] = p`; an entry the
table has after the copy of the agent table is kept by the merge. -/
theorem service_accounts_merged (rt : Router) (r : gin.Engine Handler) (u p : String)
    (hen : rt.HTTP.APIForAgent.Enable = true) (hne : rt.HTTP.APIForAgent.BasicAuth ≠ [])
    (hs : mapGet rt.HTTP.APIForService.BasicAuth u = some p)
    (hu : mapGet rt.HTTP.APIForAgent.BasicAuth u = none) :
    mapGet rt.accounts u = some p ∧
    (∀ x ∈ rt.registered r, x.Path ∈ agentPaths →
      ∃ h, x.Handlers = [Handler.BasicAuth rt.accounts, h]) ∧
    (∀ u' q, mapGet (copyAccounts rt.HTTP.APIForAgent.BasicAuth) u' = some q →
      mapGet rt.accounts u' = some q) := by
  refine ⟨?_, ?_, ?_⟩
  · exact mergeService_adds _ _ u p (copy_absent _ [] u hu rfl) hs
  · rw [registered_eq]
    by_cases hc : rt.Ctx.CenterApi.Addrs.length > 0 <;>
    rcases hag : rt.HTTP.APIForAgent.BasicAuth with _ | ⟨e, l⟩ <;>
    simp [hen, hc, hag, authIfAny, agentPaths] at hne ⊢
  · intro u' q h
    exact mergeService_keeps _ _ u' q h

/-- C3 at the sample configuration: the service account `edge` is in the merged
table with its service password. -/
theorem service_accounts_merged_witness :
    mapGet sampleRouter.accounts "edge" = some "s2" :=
  (service_accounts_merged sampleRouter freshEngine "edge" "s2" (by decide) (by decide)
    (by decide) (by decide)).1

/-- C3 as stated fails: in the sample configuration the user name `agent` has the
password `s1` in `APIForService.BasicAuth`, and the table given to `gin.BasicAuth` for
the agent routes has the agent password `a1` under it. -/
theorem service_accounts_conflict_counterexample :
    sampleRouter.HTTP.APIForAgent.BasicAuth ≠ [] ∧
    mapGet sampleRouter.HTTP.APIForService.BasicAuth "agent" = some "s1" ∧
    ({ Method := Method.POST, Path := "/opentsdb/put", Group := [Handler.stat],
       Handlers := [Handler.BasicAuth sampleRouter.accounts, Handler.openTSDBPut] } :
        RouteInfo Handler) ∈ sampleRouter.registered freshEngine ∧
    mapGet sampleRouter.accounts "agent" = some "a1" ∧
    mapGet sampleRouter.accounts "agent" ≠ some "s1" := by
  decide

end pushgw

/-! ## Theorems: datadog, heartbeat and ingestion routes; the constructors -/

namespace pushgw
open gin

/-- C4: with the agent API enabled, whatever `HTTP.APIForAgent.BasicAuth` holds,
`Config` registers POST `/datadog/api/v1/series`, POST `/datadog/api/v1/check_run`,
GET `/datadog/api/v1/validate`, POST `/datadog/api/v1/metadata` and POST
`/datadog/intake/` with their handler alone behind the middleware of the engine and
`stat`; no basic-auth middleware is given at the registration, and the chain has
none unless the engine had one before `Config`. -/
theorem datadog_routes_without_basic_auth (rt : Router) (r : gin.Engine Handler)
    (hen : rt.HTTP.APIForAgent.Enable = true) :
    (∀ e ∈ [(Method.POST, "/datadog/api/v1/series", Handler.datadogSeries),
            (Method.POST, "/datadog/api/v1/check_run", Handler.datadogCheckRun),
            (Method.GET, "/datadog/api/v1/validate", Handler.datadogValidate),
            (Method.POST, "/datadog/api/v1/metadata", Handler.datadogMetadata),
            (Method.POST, "/datadog/intake/", Handler.datadogIntake)],
      ({ Method := e.1, Path := e.2.1, Group := r.Handlers ++ [Handler.stat],
         Handlers := [e.2.2] } : RouteInfo Handler) ∈ rt.registered r) ∧
    (∀ x ∈ rt.registered r, x.Path ∈ datadogPaths →
      (∃ h, x.Handlers = [h] ∧ h.isBasicAuth = false) ∧
      x.chain = r.Handlers ++ Handler.stat :: x.Handlers ∧
      ((∀ h ∈ r.Handlers, h.isBasicAuth = false) → ∀ h ∈ x.chain, h.isBasicAuth = false)) := by
  constructor
  · rw [registered_eq]
    simp [hen]
  · intro x hx hp
    have key : x.Group = r.Handlers ++ [Handler.stat] ∧
        ∃ h, x.Handlers = [h] ∧ h.isBasicAuth = false := by
      rw [registered_eq] at hx
      by_cases hc : rt.Ctx.CenterApi.Addrs.length > 0 <;>
      simp [hen, hc] at hx <;>
      casesm* _ ∨ _ <;>
      subst x <;>
      simp [datadogPaths, Handler.isBasicAuth] at hp ⊢
    obtain ⟨hg, h, hh, hb⟩ := key
    refine ⟨⟨h, hh, hb⟩, by simp [RouteInfo.chain, hg], ?_⟩
    intro hr a ha
    simp only [RouteInfo.chain, hg, hh, List.mem_append, List.mem_singleton] at ha
    rcases ha with (ha | ha) | ha
    · exact hr a ha
    · subst ha
      rfl
    · subst ha
      exact hb

/-- C4 at the sample configuration, whose agent table is non-empty: the chain of the
datadog series route is `stat` and the handler. -/
theorem datadog_routes_without_basic_auth_witness :
    sampleRouter.HTTP.APIForAgent.BasicAuth ≠ [] ∧
    ({ Method := Method.POST, Path := "/datadog/api/v1/series", Group := [Handler.stat],
       Handlers := [Handler.datadogSeries] } : RouteInfo Handler) ∈
      sampleRouter.registered freshEngine :=
  ⟨by decide, (datadog_routes_without_basic_auth sampleRouter freshEngine (by decide)).1
    (Method.POST, "/datadog/api/v1/series", Handler.datadogSeries) (by simp)⟩

/-- C5: the hook `HandleTS` that `New` installs returns the time series it is given:
labels and samples are the same and the result is `nil` only for a `nil` input. -/
theorem New_HandleTS_id (httpConfig : httpx.Config) (pushgw : Val pconf.Pushgw)
    (aconf : Val aconf.Alert) (tc : Ptr memsto.TargetCacheType)
    (bg : Ptr memsto.BusiGroupCacheType) (idents : Ptr idents.Set) (metas : Ptr metas.Set)
    (writers : Ptr writer.WritersType) (ctx : ctx.Context) (pt : Option prompb.TimeSeries) :
    (New httpConfig pushgw aconf tc bg idents metas writers ctx).HandleTS pt = pt ∧
    (∀ ts : prompb.TimeSeries,
      ∃ out, (New httpConfig pushgw aconf tc bg idents metas writers ctx).HandleTS (some ts) =
          some out ∧ out.Labels = ts.Labels ∧ out.Samples = ts.Samples) ∧
    ((New httpConfig pushgw aconf tc bg idents metas writers ctx).HandleTS pt = none ↔
      pt = none) :=
  ⟨rfl, fun ts => ⟨ts, rfl, rfl, rfl⟩, Iff.rfl⟩

/-- C6: `Config` registers POST `/v1/n9e/edge/heartbeat` if and only if
`HTTP.APIForAgent.Enable` is true, and POST `/v1/n9e/heartbeat` if and only if
`HTTP.APIForAgent.Enable` is true and `Ctx.CenterApi.Addrs` is non-empty; every route
on one of the two paths is a POST route whose handler is `rt.heartbeat`. -/
theorem heartbeat_routes_registered_iff (rt : Router) (r : gin.Engine Handler) :
    ((∃ x ∈ rt.registered r, x.Method = Method.POST ∧ x.Path = "/v1/n9e/edge/heartbeat") ↔
      rt.HTTP.APIForAgent.Enable = true) ∧
    ((∃ x ∈ rt.registered r, x.Method = Method.POST ∧ x.Path = "/v1/n9e/heartbeat") ↔
      (rt.HTTP.APIForAgent.Enable = true ∧ rt.Ctx.CenterApi.Addrs ≠ [])) ∧
    ((∃ x ∈ rt.registered r, x.Path = "/v1/n9e/edge/heartbeat") ↔
      rt.HTTP.APIForAgent.Enable = true) ∧
    ((∃ x ∈ rt.registered r, x.Path = "/v1/n9e/heartbeat") ↔
      (rt.HTTP.APIForAgent.Enable = true ∧ rt.Ctx.CenterApi.Addrs ≠ [])) ∧
    (∀ x ∈ rt.registered r, x.Path = "/v1/n9e/edge/heartbeat" ∨ x.Path = "/v1/n9e/heartbeat" →
      x.Method = Method.POST ∧ x.handler = some Handler.heartbeat) := by
  rw [registered_eq]
  by_cases he : rt.HTTP.APIForAgent.Enable = true <;>
  rcases hc : rt.Ctx.CenterApi.Addrs with _ | ⟨a, l⟩ <;>
  by_cases ha : rt.HTTP.APIForAgent.BasicAuth.length > 0 <;>
  simp [he, hc, ha, authIfAny, RouteInfo.handler, RouteInfo.chain]

/-- C7 (as amended): with the agent API enabled, every ingestion route (opentsdb put,
openfalcon push, prometheus remote write, proxy write, datadog series and intake) is
registered behind the middleware of the engine and `stat`, and it is given an
authentication middleware if and only if `HTTP.APIForAgent.BasicAuth` is non-empty
and the route is not a datadog route; in that case the basic-auth middleware of the
merged table stands immediately before the handler. -/
theorem ingestion_routes_auth_iff (rt : Router) (r : gin.Engine Handler)
    (hen : rt.HTTP.APIForAgent.Enable = true) :
    ∀ x ∈ rt.registered r, ∀ e ∈ ingestionRoutes, x.Path = e.1 →
      x.handler = some e.2 ∧
      x.chain = r.Handlers ++ Handler.stat :: x.Handlers ∧
      ((∃ a ∈ x.Handlers, a.isBasicAuth = true) ↔
        (rt.HTTP.APIForAgent.BasicAuth ≠ [] ∧ x.Path ∉ datadogPaths)) ∧
      (rt.HTTP.APIForAgent.BasicAuth ≠ [] → x.Path ∉ datadogPaths →
        x.Handlers = [Handler.BasicAuth rt.accounts, e.2]) := by
  rw [registered_eq]
  by_cases hc : rt.Ctx.CenterApi.Addrs.length > 0 <;>
  rcases hag : rt.HTTP.APIForAgent.BasicAuth with _ | ⟨e, l⟩ <;>
  simp [hen, hc, hag, authIfAny, ingestionRoutes, datadogPaths, RouteInfo.handler,
    RouteInfo.chain, Handler.isBasicAuth]

/-- C7 at the sample configuration: the remote-write route has the basic-auth
middleware of the merged table before its handler. -/
theorem ingestion_routes_auth_iff_witness :
    ∃ x ∈ sampleRouter.registered freshEngine, x.Path = "/prometheus/v1/write" ∧
      x.handler = some Handler.remoteWrite ∧
      x.chain = [Handler.stat, Handler.BasicAuth sampleRouter.accounts, Handler.remoteWrite] :=
  ⟨{ Method := Method.POST, Path := "/prometheus/v1/write", Group := [Handler.stat],
     Handlers := [Handler.BasicAuth sampleRouter.accounts, Handler.remoteWrite] },
   by decide, rfl,
   (ingestion_routes_auth_iff sampleRouter freshEngine (by decide) _ (by decide)
      ("/prometheus/v1/write", Handler.remoteWrite) (by decide) rfl).1,
   by decide⟩

/-- C7 as stated fails: with the agent API enabled and a non-empty agent table the
chain of the datadog series route is `stat` and the handler, and with an empty agent
table the chain of the opentsdb route is `stat` and the handler; neither has an
authentication middleware. -/
theorem ingestion_routes_auth_counterexample :
    (sampleRouter.HTTP.APIForAgent.Enable = true ∧
      ∃ x ∈ sampleRouter.registered freshEngine, x.Path = "/datadog/api/v1/series" ∧
        x.chain = [Handler.stat, Handler.datadogSeries] ∧
        ∀ h ∈ x.chain, h.isBasicAuth = false) ∧
    (openRouter.HTTP.APIForAgent.Enable = true ∧
      ∃ x ∈ openRouter.registered freshEngine, x.Path = "/opentsdb/put" ∧
        x.chain = [Handler.stat, Handler.openTSDBPut] ∧
        ∀ h ∈ x.chain, h.isBasicAuth = false) := by
  decide

end pushgw

/-- C8: the router `pushgw.New` returns has `IdentSet`, `MetaSet`, `TargetCache`,
`BusiGroupCache`, `Writers`, `Ctx`, `HTTP`, `Pushgw` and `Aconf` equal to the arguments
`idents`, `metas`, `tc`, `bg`, `writers`, `ctx`, `httpConfig`, `pushgw` and `aconf`,
and the router `center.New` returns has `IdentSet` equal to its argument `idents`. -/
theorem New_stores_arguments (httpConfig : httpx.Config) (pg : Val pconf.Pushgw)
    (aconf : Val aconf.Alert) (tc : Ptr memsto.TargetCacheType)
    (bg : Ptr memsto.BusiGroupCacheType) (idents : Ptr idents.Set) (metas : Ptr metas.Set)
    (writers : Ptr writer.WritersType) (ctx : ctx.Context)
    (cc : cconf.Center) (ibex : Val conf.Ibex) (operations : Val cconf.Operation)
    (ds : Ptr memsto.DatasourceCacheType) (ncc : Ptr memsto.NotifyConfigCacheType)
    (pc : Ptr prom.PromClientMap) (redis : Val storage.Redis) (sso : Ptr sso.SsoClient)
    (uc : Ptr memsto.UserCacheType) (ugc : Ptr memsto.UserGroupCacheType)
    (utc : Ptr memsto.UserTokenCacheType) :
    ((pushgw.New httpConfig pg aconf tc bg idents metas writers ctx).IdentSet = idents ∧
     (pushgw.New httpConfig pg aconf tc bg idents metas writers ctx).MetaSet = metas ∧
     (pushgw.New httpConfig pg aconf tc bg idents metas writers ctx).TargetCache = tc ∧
     (pushgw.New httpConfig pg aconf tc bg idents metas writers ctx).BusiGroupCache = bg ∧
     (pushgw.New httpConfig pg aconf tc bg idents metas writers ctx).Writers = writers ∧
     (pushgw.New httpConfig pg aconf tc bg idents metas writers ctx).Ctx = ctx ∧
     (pushgw.New httpConfig pg aconf tc bg idents metas writers ctx).HTTP = httpConfig ∧
     (pushgw.New httpConfig pg aconf tc bg idents metas writers ctx).Pushgw = pg ∧
     (pushgw.New httpConfig pg aconf tc bg idents metas writers ctx).Aconf = aconf) ∧
    (center.New httpConfig cc aconf ibex operations ds ncc pc redis sso ctx metas idents
      tc uc ugc utc).IdentSet = idents :=
  ⟨⟨rfl, rfl, rfl, rfl, rfl, rfl, rfl, rfl, rfl⟩, rfl⟩

/-! ## Theorems: the identity registry -/

namespace registry

theorem Lookup_append_absent (reg : Registry) (new : IdentityRecord)
    (h : Lookup reg new.identifier = none) :
    Lookup (reg ++ [new]) new.identifier = some new := by
  induction reg with
  | nil => simp [Lookup]
  | cons r rest ih =>
    by_cases hr : r.identifier = new.identifier
    · simp [Lookup, hr] at h
    · simp only [Lookup, hr, if_false] at h
      simp [Lookup, hr, ih h]

theorem Lookup_overwrite (reg : Registry) (new old : IdentityRecord)
    (h : Lookup reg new.identifier = some old) :
    Lookup (overwrite reg new) new.identifier = some new := by
  induction reg with
  | nil => simp [Lookup] at h
  | cons r rest ih =>
    by_cases hr : r.identifier = new.identifier
    · simp [overwrite, Lookup, hr]
    · simp only [Lookup, hr, if_false] at h
      have := ih h
      simp only [overwrite] at this
      simp [overwrite, Lookup, hr, this]

/-- One heartbeat on a valid identifier succeeds, and the record stored under the
identifier afterwards is the stored one when that is newer and the new one otherwise. -/
theorem Heartbeat_Lookup (reg : Registry) (identifier : String)
    (metadata : List (String × String)) (now : Int) (hid : identifier ≠ "") :
    ∃ reg', Heartbeat reg identifier metadata now = Except.ok reg' ∧
      Lookup reg' identifier = some
        (match Lookup reg identifier with
         | none => { identifier := identifier, lastHeartbeat := now, metadata := metadata }
         | some old =>
           if now < old.lastHeartbeat then old
           else { identifier := identifier, lastHeartbeat := now, metadata := metadata }) := by
  unfold Heartbeat
  rw [if_neg hid]
  cases hl : Lookup reg identifier with
  | none =>
    exact ⟨_, rfl, Lookup_append_absent reg
      { identifier := identifier, lastHeartbeat := now, metadata := metadata } hl⟩
  | some old =>
    by_cases hlt : now < old.lastHeartbeat
    · simp only [hlt, if_true]
      exact ⟨_, rfl, hl⟩
    · simp only [hlt, if_false]
      exact ⟨_, rfl, Lookup_overwrite reg
        { identifier := identifier, lastHeartbeat := now, metadata := metadata } old hl⟩

/-- Two heartbeats for one identifier on a registry whose record for it is not newer
than both: the greater timestamp wins, the later heartbeat on equal timestamps. -/
theorem two_heartbeats (reg : Registry) (identifier : String)
    (m1 m2 : List (String × String)) (t1 t2 : Int) (hid : identifier ≠ "")
    (hold : ∀ old, Lookup reg identifier = some old → old.lastHeartbeat ≤ max t1 t2) :
    ∃ reg', (Heartbeat reg identifier m1 t1 >>= fun s => Heartbeat s identifier m2 t2) =
        Except.ok reg' ∧
      Lookup reg' identifier = some
        (if t1 ≤ t2 then { identifier := identifier, lastHeartbeat := t2, metadata := m2 }
         else { identifier := identifier, lastHeartbeat := t1, metadata := m1 }) := by
  obtain ⟨s, hs, hls⟩ := Heartbeat_Lookup reg identifier m1 t1 hid
  obtain ⟨s', hs', hls'⟩ := Heartbeat_Lookup s identifier m2 t2 hid
  refine ⟨s', ?_, ?_⟩
  · rw [hs]
    exact hs'
  · rw [hls', hls]
    cases hl : Lookup reg identifier with
    | none =>
      by_cases h12 : t1 ≤ t2
      · simp [h12, not_lt.mpr h12]
      · simp [h12, not_le.mp h12]
    | some old =>
      have hmax := hold old hl
      by_cases h12 : t1 ≤ t2
      · rw [max_eq_right h12] at hmax
        by_cases h1 : t1 < old.lastHeartbeat
        · simp [h12, h1, not_lt.mpr hmax]
        · simp [h12, h1, not_lt.mpr h12]
      · rw [max_eq_left (le_of_lt (not_le.mp h12))] at hmax
        simp [h12, not_lt.mpr hmax, not_le.mp h12]

/-- C9: for every valid identifier and every registry whose record for it is not
newer than 10, after a heartbeat with timestamp 10 and a heartbeat with timestamp 5,
in either arrival order, `Lookup` returns the record of the heartbeat with timestamp
10; in general the greater of the two timestamps wins, and on equal timestamps the
heartbeat observed later. -/
theorem heartbeat_resolved_by_timestamp (reg : Registry) (identifier : String)
    (m1 m2 : List (String × String)) (hid : identifier ≠ "")
    (hold : ∀ old, Lookup reg identifier = some old → old.lastHeartbeat ≤ 10) :
    (∃ reg', (Heartbeat reg identifier m1 10 >>= fun s => Heartbeat s identifier m2 5) =
        Except.ok reg' ∧
      Lookup reg' identifier =
        some { identifier := identifier, lastHeartbeat := 10, metadata := m1 }) ∧
    (∃ reg', (Heartbeat reg identifier m2 5 >>= fun s => Heartbeat s identifier m1 10) =
        Except.ok reg' ∧
      Lookup reg' identifier =
        some { identifier := identifier, lastHeartbeat := 10, metadata := m1 }) ∧
    (∀ t1 t2 : Int,
      (∀ old, Lookup reg identifier = some old → old.lastHeartbeat ≤ max t1 t2) →
      ∃ reg', (Heartbeat reg identifier m1 t1 >>= fun s => Heartbeat s identifier m2 t2) =
          Except.ok reg' ∧
        Lookup reg' identifier = some
          (if t1 ≤ t2 then { identifier := identifier, lastHeartbeat := t2, metadata := m2 }
           else { identifier := identifier, lastHeartbeat := t1, metadata := m1 })) := by
  refine ⟨?_, ?_, fun t1 t2 h => two_heartbeats reg identifier m1 m2 t1 t2 hid h⟩
  · simpa using two_heartbeats reg identifier m1 m2 10 5 hid (by simpa using hold)
  · simpa using two_heartbeats reg identifier m2 m1 5 10 hid (by simpa using hold)

/-- C9 on the empty registry and the identifier `host-7`. -/
theorem heartbeat_resolved_by_timestamp_witness :
    ∃ reg', (Heartbeat [] "host-7" [("version", "1.2")] 5 >>= fun s =>
        Heartbeat s "host-7" [("version", "1.3")] 10) = Except.ok reg' ∧
      Lookup reg' "host-7" =
        some { identifier := "host-7", lastHeartbeat := 10, metadata := [("version", "1.3")] } :=
  (heartbeat_resolved_by_timestamp [] "host-7" [("version", "1.3")] [("version", "1.2")]
    (by decide) (by simp [Lookup])).2.1

theorem Lookup_filter_kept (reg : Registry) (keep : IdentityRecord → Bool)
    (identifier : String) (rec : IdentityRecord)
    (h : Lookup reg identifier = some rec) (hk : keep rec = true) :
    Lookup (reg.filter keep) identifier = some rec := by
  induction reg with
  | nil => simp [Lookup] at h
  | cons r rest ih =>
    by_cases hr : r.identifier = identifier
    · simp only [Lookup, hr, if_true, Option.some.injEq] at h
      subst h
      simp [List.filter_cons, hk, Lookup, hr]
    · simp only [Lookup, hr, if_false] at h
      by_cases hkr : keep r = true
      · simp [List.filter_cons, hkr, Lookup, hr, ih h]
      · simp [List.filter_cons, hkr, ih h]

theorem Lookup_none_of_not_mem (reg : Registry) (identifier : String)
    (h : identifier ∉ reg.map IdentityRecord.identifier) : Lookup reg identifier = none := by
  induction reg with
  | nil => rfl
  | cons r rest ih =>
    simp only [List.map_cons, List.mem_cons, not_or] at h
    simp [Lookup, Ne.symm h.1, ih h.2]

theorem Lookup_filter_none (reg : Registry) (keep : IdentityRecord → Bool)
    (identifier : String) (h : Lookup reg identifier = none) :
    Lookup (reg.filter keep) identifier = none := by
  induction reg with
  | nil => rfl
  | cons r rest ih =>
    by_cases hr : r.identifier = identifier
    · simp [Lookup, hr] at h
    · simp only [Lookup, hr, if_false] at h
      by_cases hkr : keep r = true
      · simp [List.filter_cons, hkr, Lookup, hr, ih h]
      · simp [List.filter_cons, hkr, ih h]

theorem Lookup_filter_removed (reg : Registry) (keep : IdentityRecord → Bool)
    (identifier : String) (rec : IdentityRecord)
    (hnd : (reg.map IdentityRecord.identifier).Nodup)
    (h : Lookup reg identifier = some rec) (hk : keep rec = false) :
    Lookup (reg.filter keep) identifier = none := by
  induction reg with
  | nil => simp [Lookup] at h
  | cons r rest ih =>
    simp only [List.map_cons, List.nodup_cons] at hnd
    by_cases hr : r.identifier = identifier
    · simp only [Lookup, hr, if_true, Option.some.injEq] at h
      subst h
      simp only [List.filter_cons, hk, Bool.false_eq_true, if_false]
      exact Lookup_filter_none rest keep identifier
        (Lookup_none_of_not_mem rest identifier (hr ▸ hnd.1))
    · simp only [Lookup, hr, if_false] at h
      by_cases hkr : keep r = true
      · simp [List.filter_cons, hkr, Lookup, hr, ih hnd.2 h]
      · simp [List.filter_cons, hkr, ih hnd.2 h]

/-- C10: for every registry, `now` and `ttl`, the records of `Sweep(now, ttl)` are
exactly the records of the registry whose last-heartbeat is not less than
`now - ttl`, each unchanged and in the order they had; a record that stays is still
found by `Lookup`, and in a registry with one record per identifier a removed one is
not found; sweeping twice gives the registry that sweeping once gives. -/
theorem sweep_removes_exactly_expired (reg : Registry) (now ttl : Int) :
    (∀ rec, rec ∈ Sweep reg now ttl ↔ (rec ∈ reg ∧ ¬ rec.lastHeartbeat < now - ttl)) ∧
    (Sweep reg now ttl).Sublist reg ∧
    (∀ identifier rec, Lookup reg identifier = some rec → ¬ rec.lastHeartbeat < now - ttl →
      Lookup (Sweep reg now ttl) identifier = some rec) ∧
    ((reg.map IdentityRecord.identifier).Nodup →
      ∀ identifier rec, Lookup reg identifier = some rec → rec.lastHeartbeat < now - ttl →
        Lookup (Sweep reg now ttl) identifier = none) ∧
    Sweep (Sweep reg now ttl) now ttl = Sweep reg now ttl := by
  refine ⟨?_, ?_, ?_, ?_, ?_⟩
  · intro rec
    simp [Sweep, List.mem_filter]
  · exact List.filter_sublist _
  · intro identifier rec h hk
    exact Lookup_filter_kept reg _ identifier rec h (by simpa using hk)
  · intro hnd identifier rec h hk
    exact Lookup_filter_removed reg _ identifier rec hnd h (by simpa using hk)
  · simp [Sweep, List.filter_filter]

/-- C10 on a registry of two records, of which the sweep at `now = 100` with
`ttl = 30` removes the one with last-heartbeat 50. -/
theorem sweep_removes_exactly_expired_witness :
    Sweep [{ identifier := "host-7", lastHeartbeat := 50, metadata := [] },
           { identifier := "host-8", lastHeartbeat := 70, metadata := [] }] 100 30 =
        [{ identifier := "host-8", lastHeartbeat := 70, metadata := [] }] ∧
      Lookup (Sweep [{ identifier := "host-7", lastHeartbeat := 50, metadata := [] },
           { identifier := "host-8", lastHeartbeat := 70, metadata := [] }] 100 30) "host-7" =
        none :=
  ⟨by decide,
   (sweep_removes_exactly_expired
      [{ identifier := "host-7", lastHeartbeat := 50, metadata := [] },
       { identifier := "host-8", lastHeartbeat := 70, metadata := [] }] 100 30).2.2.2.1
      (by decide) "host-7" { identifier := "host-7", lastHeartbeat := 50, metadata := [] }
      (by decide) (by decide)⟩

end registry

/-! ## Theorems: the merged account table as a union -/

theorem mapGet_none_of_not_mem (m : List (String × String)) (u : String)
    (h : u ∉ m.map Prod.fst) : mapGet m u = none := by
  induction m with
  | nil => rfl
  | cons e rest ih =>
    obtain ⟨k, v⟩ := e
    simp only [List.map_cons, List.mem_cons, not_or] at h
    simp [mapGet, Ne.symm h.1, ih h.2]

theorem mem_keys_of_mapGet (m : List (String × String)) (u p : String)
    (h : mapGet m u = some p) : (u, p) ∈ m := by
  induction m with
  | nil => simp [mapGet] at h
  | cons e rest ih =>
    obtain ⟨k, v⟩ := e
    by_cases hk : k = u
    · simp only [mapGet, hk, if_true, Option.some.injEq] at h
      simp [hk, h]
    · simp only [mapGet, hk, if_false] at h
      exact List.mem_cons_of_mem _ (ih h)

/-- In a table with one entry per user name, every entry is what the lookup of its
user name gives. -/
theorem mapGet_of_mem (m : List (String × String)) (u p : String)
    (hnd : (m.map Prod.fst).Nodup) (h : (u, p) ∈ m) : mapGet m u = some p := by
  induction m with
  | nil => simp at h
  | cons e rest ih =>
    obtain ⟨k, v⟩ := e
    simp only [List.map_cons, List.nodup_cons] at hnd
    rcases List.mem_cons.mp h with heq | hmem
    · simp only [Prod.mk.injEq] at heq
      simp [mapGet, heq.1, heq.2]
    · have hne : k ≠ u := by
        intro hku
        subst hku
        exact hnd.1 (List.mem_map.mpr ⟨(k, p), hmem, rfl⟩)
      simp [mapGet, hne, ih hnd.2 hmem]

/-- Two tables with the same entries and one entry per user name give the same
lookups, whatever the order of the entries. -/
theorem mapGet_perm (m m' : List (String × String)) (u : String)
    (hp : m'.Perm m) (hnd : (m.map Prod.fst).Nodup) : mapGet m' u = mapGet m u := by
  have hnd' : (m'.map Prod.fst).Nodup := (hp.map Prod.fst).nodup_iff.mpr hnd
  cases h : mapGet m u with
  | some p => exact mapGet_of_mem m' u p hnd' (hp.mem_iff.mpr (mem_keys_of_mapGet m u p h))
  | none =>
    cases h' : mapGet m' u with
    | none => rfl
    | some p =>
      have := mapGet_of_mem m u p hnd (hp.mem_iff.mp (mem_keys_of_mapGet m' u p h'))
      rw [h] at this
      cases this

namespace pushgw
open gin

/-- The copy loop on a table with one entry per user name: the entry of the agent
table if there is one, the entry the table had before otherwise. -/
theorem copy_lookup (agent accounts : gin.Accounts) (u : String)
    (hnd : (agent.map Prod.fst).Nodup) :
    mapGet (agent.foldl (fun accounts e => mapSet accounts e.1 e.2) accounts) u =
      match mapGet agent u with
      | some p => some p
      | none => mapGet accounts u := by
  induction agent generalizing accounts with
  | nil => rfl
  | cons e rest ih =>
    obtain ⟨k, v⟩ := e
    simp only [List.map_cons, List.nodup_cons] at hnd
    simp only [List.foldl_cons]
    rw [ih _ hnd.2]
    by_cases hk : k = u
    · subst hk
      simp [mapGet, mapGet_none_of_not_mem rest k hnd.1, mapGet_mapSet_self]
    · simp [mapGet, hk, mapGet_mapSet_ne _ _ _ _ hk]

/-- The merge loop: the entry the table has if there is one, the service entry
otherwise. -/
theorem mergeService_lookup (accounts service : gin.Accounts) (u : String) :
    mapGet (mergeService accounts service) u =
      match mapGet accounts u with
      | some q => some q
      | none => mapGet service u := by
  cases h : mapGet accounts u with
  | some q => exact mergeService_keeps accounts service u q h
  | none =>
    cases hs : mapGet service u with
    | some p => exact mergeService_adds accounts service u p h hs
    | none =>
      show mapGet (mergeService accounts service) u = none
      induction service generalizing accounts with
      | nil => simpa [mergeService] using h
      | cons e rest ih =>
        obtain ⟨k, v⟩ := e
        have hk : k ≠ u := by
          intro hku
          simp [mapGet, hku] at hs
        simp only [mapGet, hk, if_false] at hs
        simp only [mergeService, List.foldl_cons]
        by_cases hsome : (mapGet accounts k).isSome = true
        · rw [if_pos hsome]
          exact ih accounts h hs
        · rw [if_neg hsome]
          exact ih _ (by rw [mapGet_mapSet_ne _ _ _ _ hk]; exact h) hs

/-- The lookup in the merged table, for an agent table with one entry per user name. -/
theorem accounts_lookup (agent service : gin.Accounts) (u : String)
    (hnd : (agent.map Prod.fst).Nodup) :
    mapGet (mergeService (copyAccounts agent) service) u =
      match mapGet agent u with
      | some p => some p
      | none => mapGet service u := by
  rw [mergeService_lookup, copyAccounts, copy_lookup agent [] u hnd]
  cases mapGet agent u <;> rfl

/-- C14: the account table `Config` builds for the agent routes is the union of the
two configured tables with agent precedence.  For tables with one entry per user name
(as Go maps have), a user name is in the merged table exactly when it is in
`APIForAgent.BasicAuth` or in `APIForService.BasicAuth`; a user name of the agent
table has the agent password, also when the service table has it too; a user name of
the service table alone has the service password; and the lookups of the merged table
are the same for every order in which the two tables are iterated. -/
theorem merged_accounts_union_agent_precedence (rt : Router)
    (hna : (rt.HTTP.APIForAgent.BasicAuth.map Prod.fst).Nodup)
    (hns : (rt.HTTP.APIForService.BasicAuth.map Prod.fst).Nodup) :
    (∀ u, (mapGet rt.accounts u).isSome = true ↔
      ((mapGet rt.HTTP.APIForAgent.BasicAuth u).isSome = true ∨
       (mapGet rt.HTTP.APIForService.BasicAuth u).isSome = true)) ∧
    (∀ u p, mapGet rt.HTTP.APIForAgent.BasicAuth u = some p → mapGet rt.accounts u = some p) ∧
    (∀ u p, mapGet rt.HTTP.APIForAgent.BasicAuth u = none →
      mapGet rt.HTTP.APIForService.BasicAuth u = some p → mapGet rt.accounts u = some p) ∧
    (∀ agent service : gin.Accounts, agent.Perm rt.HTTP.APIForAgent.BasicAuth →
      service.Perm rt.HTTP.APIForService.BasicAuth →
      ∀ u, mapGet (mergeService (copyAccounts agent) service) u = mapGet rt.accounts u) ∧
    (∀ r : gin.Engine Handler, rt.HTTP.APIForAgent.Enable = true →
      rt.HTTP.APIForAgent.BasicAuth ≠ [] →
      ∀ x ∈ rt.registered r, x.Path ∈ agentPaths →
        ∃ h, x.Handlers = [Handler.BasicAuth rt.accounts, h]) := by
  have key := fun u => accounts_lookup rt.HTTP.APIForAgent.BasicAuth
    rt.HTTP.APIForService.BasicAuth u hna
  refine ⟨?_, ?_, ?_, ?_, ?_⟩
  · intro u
    rw [Router.accounts, key u]
    cases mapGet rt.HTTP.APIForAgent.BasicAuth u <;> simp
  · intro u p h
    rw [Router.accounts, key u, h]
  · intro u p h hs
    rw [Router.accounts, key u, h]
    exact hs
  · intro agent service hpa hps u
    have hna' : (agent.map Prod.fst).Nodup := (hpa.map Prod.fst).nodup_iff.mpr hna
    rw [accounts_lookup agent service u hna', Router.accounts, key u,
      mapGet_perm _ agent u hpa hna, mapGet_perm _ service u hps hns]
  · intro r hen hne
    rw [registered_eq]
    by_cases hc : rt.Ctx.CenterApi.Addrs.length > 0 <;>
    rcases hag : rt.HTTP.APIForAgent.BasicAuth with _ | ⟨e, l⟩ <;>
    simp [hen, hc, hag, authIfAny, agentPaths] at hne ⊢

/-- C14 at the sample configuration, where the user name `agent` is in both tables:
the merged table has the agent password. -/
theorem merged_accounts_union_agent_precedence_witness :
    mapGet sampleRouter.accounts "agent" = some "a1" ∧
    mapGet sampleRouter.accounts "edge" = some "s2" :=
  ⟨(merged_accounts_union_agent_precedence sampleRouter (by decide) (by decide)).2.1
      "agent" "a1" (by decide),
   (merged_accounts_union_agent_precedence sampleRouter (by decide) (by decide)).2.2.1
      "edge" "s2" (by decide) (by decide)⟩

end pushgw

/-! ## Theorems: the route table of the center -/

namespace gin

theorem call_routes {H : Type} (g : RouterGroup H) (r : Engine H) (c : Call H) :
    (g.call r c).routes = r.routes ++ g.expandCall c ∧ (g.call r c).Handlers = r.Handlers := by
  obtain ⟨ms, p, hs⟩ := c
  simp only [RouterGroup.call, RouterGroup.expandCall]
  induction ms generalizing r with
  | nil => simp
  | cons m rest ih =>
    simp only [List.foldl_cons, List.map_cons]
    obtain ⟨h1, h2⟩ := ih (g.handle r m p hs)
    rw [h1, h2]
    simp [RouterGroup.handle]

theorem calls_routes {H : Type} (g : RouterGroup H) (r : Engine H) (cs : List (Call H)) :
    (g.calls r cs).routes = r.routes ++ g.expand cs ∧ (g.calls r cs).Handlers = r.Handlers := by
  simp only [RouterGroup.calls, RouterGroup.expand]
  induction cs generalizing r with
  | nil => simp
  | cons c rest ih =>
    simp only [List.foldl_cons, List.flatMap_cons]
    obtain ⟨h1, h2⟩ := ih (g.call r c)
    obtain ⟨h3, h4⟩ := call_routes g r c
    rw [h1, h2, h3, h4]
    simp

theorem mem_expand {H : Type} (g : RouterGroup H) (cs : List (Call H)) (x : RouteInfo H)
    (hx : x ∈ g.expand cs) :
    ∃ c ∈ cs, x.Group = g.Handlers ∧ x.Handlers = c.handlers ∧
      x.Path = joinPaths g.basePath c.relativePath ∧ x.Method ∈ c.methods := by
  simp only [RouterGroup.expand, RouterGroup.expandCall, List.mem_flatMap, List.mem_map] at hx
  obtain ⟨c, hc, m, hm, rfl⟩ := hx
  exact ⟨c, hc, rfl, rfl, rfl, hm⟩

end gin

namespace center
open gin

theorem configStatic_routes (rt : Router) (r : gin.Engine Handler) :
    (rt.configStatic r).routes = r.routes ++
      (if rt.Center.UseFileAssets = true then []
       else [{ Method := Method.GET, Path := "/pub/*filepath", Group := r.Handlers,
               Handlers := [Handler.staticFS "/pub"] },
             { Method := Method.HEAD, Path := "/pub/*filepath", Group := r.Handlers,
               Handlers := [Handler.staticFS "/pub"] }]) ∧
    (rt.configStatic r).Handlers = r.Handlers := by
  unfold Router.configStatic
  by_cases hf : rt.Center.UseFileAssets = true <;>
  simp [hf, Engine.StaticFS, Engine.GET, Engine.HEAD, Engine.handle, RouterGroup.handle,
    joinPaths]

theorem configPages_routes (rt : Router) (r : gin.Engine Handler) :
    (rt.configPages r).routes = r.routes ++
      (RouterGroup.expand { Handlers := r.Handlers, basePath := "/api/n9e" }
        (if rt.Center.AnonymousAccess.PromQuerier = true then queryCallsAnonymous
         else queryCallsAuthenticated) ++
       RouterGroup.expand { Handlers := r.Handlers, basePath := "/api/n9e" } pagesCalls) ∧
    (rt.configPages r).Handlers = r.Handlers := by
  unfold Router.configPages
  by_cases hq : rt.Center.AnonymousAccess.PromQuerier = true <;>
  simp [hq, calls_routes, Engine.Group, joinPaths]

theorem configService_routes (rt : Router) (r : gin.Engine Handler) :
    (rt.configService r).routes = r.routes ++
      (if rt.HTTP.APIForService.Enable = true then
          RouterGroup.expand
            { Handlers := r.Handlers ++ authIfAny rt.HTTP.APIForService.BasicAuth,
              basePath := "/v1/n9e" } serviceCalls
        else []) ∧
    (rt.configService r).Handlers = r.Handlers := by
  unfold Router.configService
  by_cases hs : rt.HTTP.APIForService.Enable = true <;>
  by_cases hsa : rt.HTTP.APIForService.BasicAuth.length > 0 <;>
  simp [hs, hsa, authIfAny, calls_routes, Engine.Group, RouterGroup.Use, joinPaths]

theorem configHeartbeat_routes (rt : Router) (r : gin.Engine Handler) :
    (rt.configHeartbeat r).routes = r.routes ++
      (if rt.HTTP.APIForAgent.Enable = true then
          [{ Method := Method.POST, Path := "/v1/n9e/heartbeat",
             Group := r.Handlers ++ authIfAny rt.HTTP.APIForAgent.BasicAuth,
             Handlers := [Handler.rt "heartbeat"] }]
        else []) ∧
    (rt.configHeartbeat r).Handlers = r.Handlers := by
  unfold Router.configHeartbeat
  by_cases ha : rt.HTTP.APIForAgent.Enable = true <;>
  by_cases haa : rt.HTTP.APIForAgent.BasicAuth.length > 0 <;>
  simp [ha, haa, authIfAny, Engine.Group, RouterGroup.Use, RouterGroup.POST,
    RouterGroup.handle, joinPaths]

theorem center_registered_eq (rt : Router) (r : gin.Engine Handler) :
    rt.registered r =
      (if rt.Center.UseFileAssets = true then []
       else [{ Method := Method.GET, Path := "/pub/*filepath", Group := rt.baseMiddleware r,
               Handlers := [Handler.staticFS "/pub"] },
             { Method := Method.HEAD, Path := "/pub/*filepath", Group := rt.baseMiddleware r,
               Handlers := [Handler.staticFS "/pub"] }]) ++
      (RouterGroup.expand { Handlers := rt.baseMiddleware r, basePath := "/api/n9e" }
        (if rt.Center.AnonymousAccess.PromQuerier = true then queryCallsAnonymous
         else queryCallsAuthenticated) ++
      (RouterGroup.expand { Handlers := rt.baseMiddleware r, basePath := "/api/n9e" } pagesCalls ++
      ({ Method := Method.GET, Path := "/api/n9e/versions", Group := rt.baseMiddleware r,
         Handlers := [Handler.versions] } ::
      ((if rt.HTTP.APIForService.Enable = true then
          RouterGroup.expand
            { Handlers := rt.baseMiddleware r ++ authIfAny rt.HTTP.APIForService.BasicAuth,
              basePath := "/v1/n9e" } serviceCalls
        else []) ++
       (if rt.HTTP.APIForAgent.Enable = true then
          [{ Method := Method.POST, Path := "/v1/n9e/heartbeat",
             Group := rt.baseMiddleware r ++ authIfAny rt.HTTP.APIForAgent.BasicAuth,
             Handlers := [Handler.rt "heartbeat"] }]
        else []))))) := by
  have e : rt.Config r =
      (rt.configHeartbeat (rt.configService ((rt.configPages (rt.configStatic
        (((r.Use [Handler.stat]).Use [Handler.languageDetector rt.Center.I18NHeaderKey]).Use
          [Handler.Recovery]))).GET "/api/n9e/versions" [Handler.versions]))).NoRoute
        [Handler.noRoute] := rfl
  rw [Router.registered, e]
  have h1 := configHeartbeat_routes rt (rt.configService ((rt.configPages (rt.configStatic
        (((r.Use [Handler.stat]).Use [Handler.languageDetector rt.Center.I18NHeaderKey]).Use
          [Handler.Recovery]))).GET "/api/n9e/versions" [Handler.versions]))
  have h2 := configService_routes rt ((rt.configPages (rt.configStatic
        (((r.Use [Handler.stat]).Use [Handler.languageDetector rt.Center.I18NHeaderKey]).Use
          [Handler.Recovery]))).GET "/api/n9e/versions" [Handler.versions])
  have h3 := configPages_routes rt (rt.configStatic
        (((r.Use [Handler.stat]).Use [Handler.languageDetector rt.Center.I18NHeaderKey]).Use
          [Handler.Recovery]))
  have h4 := configStatic_routes rt
        (((r.Use [Handler.stat]).Use [Handler.languageDetector rt.Center.I18NHeaderKey]).Use
          [Handler.Recovery])
  have h5 : (((r.Use [Handler.stat]).Use [Handler.languageDetector rt.Center.I18NHeaderKey]).Use
          [Handler.Recovery]).Handlers = rt.baseMiddleware r := by
    simp [Engine.Use, Router.baseMiddleware]
  have h6 : (((r.Use [Handler.stat]).Use [Handler.languageDetector rt.Center.I18NHeaderKey]).Use
          [Handler.Recovery]).routes = r.routes := rfl
  have h7 : ∀ e : gin.Engine Handler,
      (e.GET "/api/n9e/versions" [Handler.versions]).routes = e.routes ++
        [{ Method := Method.GET, Path := "/api/n9e/versions", Group := e.Handlers,
           Handlers := [Handler.versions] }] ∧
      (e.GET "/api/n9e/versions" [Handler.versions]).Handlers = e.Handlers := by
    intro e
    simp [Engine.GET, Engine.handle, RouterGroup.handle, joinPaths]
  have h8 : ∀ (e : gin.Engine Handler) (hs : List Handler), (e.NoRoute hs).routes = e.routes :=
    fun _ _ => rfl
  rw [h8, h1.1, h2.1, h2.2, (h7 _).1, (h7 _).2, h3.1, h3.2, h4.1, h4.2, h5, h6]
  simp only [List.append_assoc, List.drop_left, List.singleton_append, List.cons_append,
    List.nil_append]

end center

namespace center
open gin

/-- A prefix without access-control middleware does not change the check. -/
theorem accessOrderedFrom_append_neutral (g l : List Handler) (sa su : Bool)
    (hg : ∀ h ∈ g, h.isAccessControl = false) :
    accessOrderedFrom sa su (g ++ l) = accessOrderedFrom sa su l := by
  induction g generalizing sa su with
  | nil => rfl
  | cons x rest ih =>
    have hx := hg x (List.mem_cons_self _ _)
    simp only [Handler.isAccessControl, Bool.or_eq_false_iff] at hx
    obtain ⟨⟨h1, h2⟩, h3⟩ := hx
    have h4 : x.isUser = false := by
      cases x <;> simp_all [Handler.isUser, Handler.needsAuth]
    simp only [List.cons_append, accessOrderedFrom, h1, h2, h3, h4, Bool.not_false,
      Bool.true_or, Bool.and_self, Bool.true_and, Bool.or_false, Bool.and_false]
    exact ih sa su fun h hh => hg h (List.mem_cons_of_mem _ hh)

theorem isAuth_eq (h : Handler) (hh : h.isAuth = true) : h = Handler.auth := by
  cases h <;> simp_all [Handler.isAuth]

theorem isUser_eq (h : Handler) (hh : h.isUser = true) : h = Handler.user := by
  cases h <;> simp_all [Handler.isUser]

/-- The pass is sound: after a prefix `s` that justifies the two flags, a chain that
passes has each access-control middleware behind the functions it needs. -/
theorem accessOrderedFrom_sound (l s : List Handler) (sa su : Bool)
    (hsa : sa = true → Handler.auth ∈ s)
    (hsu : su = true → ∃ a b c, s = a ++ Handler.auth :: (b ++ Handler.user :: c))
    (hl : accessOrderedFrom sa su l = true) :
    ∀ pre h post, l = pre ++ h :: post →
      (h.needsAuth = true → Handler.auth ∈ s ++ pre) ∧
      (h.needsUser = true →
        ∃ a b c, s ++ pre = a ++ Handler.auth :: (b ++ Handler.user :: c)) := by
  induction l generalizing s sa su with
  | nil =>
    intro pre h post e
    simp at e
  | cons x rest ih =>
    intro pre h post e
    simp only [accessOrderedFrom, Bool.and_eq_true, Bool.or_eq_true, Bool.not_eq_true'] at hl
    obtain ⟨⟨hx1, hx2⟩, hrest⟩ := hl
    cases pre with
    | nil =>
      simp only [List.nil_append, List.cons.injEq] at e
      obtain ⟨rfl, -⟩ := e
      refine ⟨fun hn => ?_, fun hn => ?_⟩
      · rcases hx1 with hx1 | hx1
        · rw [hx1] at hn
          cases hn
        · simpa using hsa hx1
      · rcases hx2 with hx2 | hx2
        · rw [hx2] at hn
          cases hn
        · simpa using hsu hx2
    | cons y pre' =>
      simp only [List.cons_append, List.cons.injEq] at e
      obtain ⟨rfl, e'⟩ := e
      have hsa' : (sa || x.isAuth) = true → Handler.auth ∈ s ++ [x] := by
        intro hor
        simp only [Bool.or_eq_true] at hor
        rcases hor with hor | hor
        · exact List.mem_append_left _ (hsa hor)
        · rw [isAuth_eq x hor]
          simp
      have hsu' : (su || (sa && x.isUser)) = true →
          ∃ a b c, s ++ [x] = a ++ Handler.auth :: (b ++ Handler.user :: c) := by
        intro hor
        simp only [Bool.or_eq_true, Bool.and_eq_true] at hor
        rcases hor with hor | ⟨hor1, hor2⟩
        · obtain ⟨a, b, c, hs⟩ := hsu hor
          exact ⟨a, b, c ++ [x], by simp [hs]⟩
        · obtain ⟨a, b, hs⟩ := List.append_of_mem (hsa hor1)
          exact ⟨a, b, [], by simp [hs, isUser_eq x hor2]⟩
      have := ih (s ++ [x]) _ _ hsa' hsu' hrest pre' h post e'
      simpa using this

/-- A chain that passes the check from the start is ordered. -/
theorem accessOrdered_of_check (l : List Handler) (hl : accessOrderedFrom false false l = true) :
    AccessOrdered l := by
  intro pre h post e
  have := accessOrderedFrom_sound l [] false false (by simp) (by simp) hl pre h post e
  simpa using this

theorem businessLast_sound (l : List Handler) (hl : businessLast l = true) : BusinessLast l := by
  induction l with
  | nil => simp [businessLast] at hl
  | cons x rest ih =>
    cases rest with
    | nil =>
      simp only [businessLast, Bool.not_eq_true'] at hl
      exact ⟨[], x, rfl, hl, by simp⟩
    | cons y rest' =>
      simp only [businessLast, Bool.and_eq_true] at hl
      obtain ⟨init, b, e, hb, hinit⟩ := ih hl.2
      refine ⟨x :: init, b, by simp [e], hb, ?_⟩
      intro m hm
      rcases List.mem_cons.mp hm with rfl | hm
      · exact hl.1
      · exact hinit m hm

set_option maxRecDepth 100000 in
theorem calls_wellOrdered :
    (∀ c ∈ queryCallsAnonymous, wellOrdered c = true) ∧
    (∀ c ∈ queryCallsAuthenticated, wellOrdered c = true) ∧
    (∀ c ∈ pagesCalls, wellOrdered c = true) ∧
    (∀ c ∈ serviceCalls, wellOrdered c = true) := by
  decide

end center

namespace center
open gin

/-- A route whose group middleware is a base list followed by middleware that is not
access control, and whose own functions pass both checks, is ordered as a whole. -/
theorem route_ordered (base extra : List Handler) (x : RouteInfo Handler)
    (hg : x.Group = base ++ extra)
    (hextra : ∀ h ∈ extra, h.isAccessControl = false ∧ h.isMiddleware = true)
    (hc : accessOrderedFrom false false x.Handlers = true)
    (hb : businessLast x.Handlers = true) :
    BusinessLast x.Handlers ∧ AccessOrdered x.Handlers ∧
    (∃ extra, x.Group = base ++ extra ∧
      ∀ h ∈ extra, h.isAccessControl = false ∧ h.isMiddleware = true) ∧
    ((∀ h ∈ base, h.isAccessControl = false) → AccessOrdered x.chain) ∧
    ((∀ h ∈ base, h.isMiddleware = true) → BusinessLast x.chain) := by
  refine ⟨businessLast_sound _ hb, accessOrdered_of_check _ hc, ⟨extra, hg, hextra⟩, ?_, ?_⟩
  · intro hbase
    apply accessOrdered_of_check
    rw [RouteInfo.chain, accessOrderedFrom_append_neutral _ _ _ _ ?_]
    · exact hc
    · intro h hh
      rw [hg] at hh
      rcases List.mem_append.mp hh with hh | hh
      · exact hbase h hh
      · exact (hextra h hh).1
  · intro hbase
    obtain ⟨init, b, e, hbm, hinit⟩ := businessLast_sound _ hb
    refine ⟨x.Group ++ init, b, by simp [RouteInfo.chain, e], hbm, ?_⟩
    intro m hm
    rw [hg] at hm
    rcases List.mem_append.mp hm with hm | hm
    · rcases List.mem_append.mp hm with hm | hm
      · exact hbase m hm
      · exact (hextra m hm).2
    · exact hinit m hm

theorem authIfAny_neutral (m : gin.Accounts) :
    ∀ h ∈ authIfAny m, h.isAccessControl = false ∧ h.isMiddleware = true := by
  intro h hh
  unfold authIfAny at hh
  split at hh
  · simp only [List.mem_singleton] at hh
    subst hh
    exact ⟨rfl, rfl⟩
  · simp at hh

theorem base_neutral (key : String) (tail : List Handler)
    (ht : ∀ h ∈ tail, h.isAccessControl = false ∧ h.isMiddleware = true) :
    ∀ h ∈ [Handler.stat, Handler.languageDetector key, Handler.Recovery] ++ tail,
      h.isAccessControl = false ∧ h.isMiddleware = true := by
  intro h hh
  simp only [List.cons_append, List.nil_append, List.mem_cons] at hh
  rcases hh with rfl | rfl | rfl | hh
  · exact ⟨rfl, rfl⟩
  · exact ⟨rfl, rfl⟩
  · exact ⟨rfl, rfl⟩
  · exact ht h hh

/-- C16: in every route `Config` of the center registers, under every configuration,
the functions given at the registration end with the business handler and have
middleware before it only; `rt.user()` and `rt.admin()` stand only behind `rt.auth()`,
and `rt.perm(...)`, `rt.bgro()`, `rt.bgrw()` and `rt.userGroupWrite()` only behind
`rt.auth()` followed by `rt.user()`; the group middleware before them is the
middleware of the engine followed by middleware that is not access control, so the
whole chain is ordered in the same way whenever the middleware the engine had before
`Config` is. -/
theorem access_control_middleware_ordered (rt : Router) (r : gin.Engine Handler) :
    ∀ x ∈ rt.registered r,
      BusinessLast x.Handlers ∧ AccessOrdered x.Handlers ∧
      (∃ extra, x.Group = r.Handlers ++ extra ∧
        ∀ h ∈ extra, h.isAccessControl = false ∧ h.isMiddleware = true) ∧
      ((∀ h ∈ r.Handlers, h.isAccessControl = false) → AccessOrdered x.chain) ∧
      ((∀ h ∈ r.Handlers, h.isMiddleware = true) → BusinessLast x.chain) := by
  intro x hx
  rw [center_registered_eq] at hx
  have hpages : ∀ cs : List (Call Handler), (∀ c ∈ cs, wellOrdered c = true) →
      ∀ (tail : List Handler) (p : String),
        (∀ h ∈ tail, h.isAccessControl = false ∧ h.isMiddleware = true) →
        x ∈ RouterGroup.expand { Handlers := rt.baseMiddleware r ++ tail, basePath := p } cs →
        accessOrderedFrom false false x.Handlers = true ∧ businessLast x.Handlers = true ∧
          x.Group = r.Handlers ++
            ([Handler.stat, Handler.languageDetector rt.Center.I18NHeaderKey, Handler.Recovery] ++
              tail) := by
    intro cs hcs tail p _ hmem
    obtain ⟨c, hc, hg, hh, -, -⟩ := mem_expand _ cs x hmem
    have := hcs c hc
    simp only [wellOrdered, Bool.and_eq_true] at this
    rw [hh]
    exact ⟨this.1, this.2, by simp [hg, Router.baseMiddleware]⟩
  have hnil : ∀ h ∈ ([] : List Handler), h.isAccessControl = false ∧ h.isMiddleware = true := by
    simp
  have finish : ∀ tail : List Handler,
      (∀ h ∈ tail, h.isAccessControl = false ∧ h.isMiddleware = true) →
      accessOrderedFrom false false x.Handlers = true ∧ businessLast x.Handlers = true ∧
        x.Group = r.Handlers ++
          ([Handler.stat, Handler.languageDetector rt.Center.I18NHeaderKey, Handler.Recovery] ++
            tail) → _ :=
    fun tail ht h => route_ordered r.Handlers _ x h.2.2 (base_neutral _ tail ht) h.1 h.2.1
  obtain ⟨hqa, hqb, hp, hs⟩ := calls_wellOrdered
  rcases List.mem_append.mp hx with hx | hx
  · split at hx
    · simp at hx
    · simp only [List.mem_cons, List.mem_singleton, List.not_mem_nil, or_false] at hx
      rcases hx with rfl | rfl <;>
      exact finish [] hnil ⟨rfl, rfl, by simp [Router.baseMiddleware]⟩
  rcases List.mem_append.mp hx with hx | hx
  · refine finish [] hnil ?_
    split at hx
    · exact hpages _ hqa [] _ hnil (by simpa using hx)
    · exact hpages _ hqb [] _ hnil (by simpa using hx)
  rcases List.mem_append.mp hx with hx | hx
  · exact finish [] hnil (hpages _ hp [] _ hnil (by simpa using hx))
  rcases List.mem_cons.mp hx with rfl | hx
  · exact finish [] hnil ⟨rfl, rfl, by simp [Router.baseMiddleware]⟩
  rcases List.mem_append.mp hx with hx | hx
  · split at hx
    · exact finish _ (authIfAny_neutral _) (hpages _ hs _ _ (authIfAny_neutral _) hx)
    · simp at hx
  · split at hx
    · simp only [List.mem_singleton] at hx
      subst hx
      exact finish (authIfAny rt.HTTP.APIForAgent.BasicAuth) (authIfAny_neutral _)
        ⟨rfl, rfl, by simp [Router.baseMiddleware]⟩
    · simp at hx

set_option maxRecDepth 100000 in
/-- C16 on a fresh engine: the whole chain of the route PUT `/api/n9e/user-group/:id`
is ordered and ends with its business handler. -/
theorem access_control_middleware_ordered_witness :
    AccessOrdered
        [Handler.stat, Handler.languageDetector "X-Language", Handler.Recovery, Handler.auth,
         Handler.user, Handler.perm "/user-groups/put", Handler.userGroupWrite,
         Handler.rt "userGroupPut"] ∧
      BusinessLast
        [Handler.stat, Handler.languageDetector "X-Language", Handler.Recovery, Handler.auth,
         Handler.user, Handler.perm "/user-groups/put", Handler.userGroupWrite,
         Handler.rt "userGroupPut"] :=
  ⟨(access_control_middleware_ordered authenticatedRouter freshEngine
      { Method := Method.PUT, Path := "/api/n9e/user-group/:id",
        Group := [Handler.stat, Handler.languageDetector "X-Language", Handler.Recovery],
        Handlers := [Handler.auth, Handler.user, Handler.perm "/user-groups/put",
                     Handler.userGroupWrite, Handler.rt "userGroupPut"] }
      (by decide)).2.2.2.1 (by simp [freshEngine]),
   (access_control_middleware_ordered authenticatedRouter freshEngine
      { Method := Method.PUT, Path := "/api/n9e/user-group/:id",
        Group := [Handler.stat, Handler.languageDetector "X-Language", Handler.Recovery],
        Handlers := [Handler.auth, Handler.user, Handler.perm "/user-groups/put",
                     Handler.userGroupWrite, Handler.rt "userGroupPut"] }
      (by decide)).2.2.2.2 (by simp [freshEngine])⟩

set_option maxRecDepth 100000 in
/-- C15 at the failing input: the two branches on `Center.AnonymousAccess.PromQuerier`
have the same 18 calls up to the middleware, but POST `/api/n9e/es-variable` is
registered behind `rt.auth()` and `rt.user()` when anonymous access is on and with its
handler alone when it is off; `/fields` and `/log-query` likewise. -/
theorem es_query_routes_lose_auth :
    queryCallsAnonymous.length = 18 ∧
    queryCallsAnonymous.map callKey = queryCallsAuthenticated.map callKey ∧
    (∀ e ∈ [("/api/n9e/es-variable", "QueryESVariable"), ("/api/n9e/fields", "QueryFields"),
            ("/api/n9e/log-query", "QueryLog")],
      ({ Method := Method.POST, Path := e.1,
         Group := [Handler.stat, Handler.languageDetector "X-Language", Handler.Recovery],
         Handlers := [Handler.auth, Handler.user, Handler.rt e.2] } : RouteInfo Handler) ∈
        anonymousRouter.registered freshEngine ∧
      ({ Method := Method.POST, Path := e.1,
         Group := [Handler.stat, Handler.languageDetector "X-Language", Handler.Recovery],
         Handlers := [Handler.rt e.2] } : RouteInfo Handler) ∈
        authenticatedRouter.registered freshEngine) := by
  decide

end center

/-! ## Theorems: the pipeline of the specification -/

namespace pipeline

/-- C11: enqueuing a batch on a Writer Target whose bounded queue is full returns at
once (the step is a total function): the oldest queued batch is dropped and the drop
counter incremented, and the queue afterwards is the previous batches without the
oldest, in their order, followed by the new batch, at the same length. -/
theorem enqueue_full_drops_oldest (t : WriterTarget) (b : Batch)
    (hfull : t.queue.length = t.capacity) (hcap : 0 < t.capacity) :
    ∃ oldest rest, t.queue = oldest :: rest ∧
      (t.enqueue b).queue = rest ++ [b] ∧
      (t.enqueue b).dropped = t.dropped + 1 ∧
      (t.enqueue b).queue.length = t.queue.length ∧
      (t.enqueue b).capacity = t.capacity ∧
      (t.enqueue b).queue.dropLast.Sublist t.queue := by
  cases hq : t.queue with
  | nil =>
    rw [hq] at hfull
    simp at hfull
    omega
  | cons oldest rest =>
    refine ⟨oldest, rest, rfl, ?_⟩
    rw [hq] at hfull
    have hnot : ¬ rest.length + 1 < t.capacity := by
      simp only [List.length_cons] at hfull
      omega
    simp [WriterTarget.enqueue, hnot, hq]

/-- C11 on a target of capacity 2 that holds two batches. -/
theorem enqueue_full_drops_oldest_witness :
    (WriterTarget.enqueue
      { name := "tsdb", capacity := 2, queue := [[], []], dropped := 0,
        health := Health.healthy }
      [{ metric := "cpu", labels := [], timestamp := 101, value := 0, target := "host-7",
         busiGroup := none }]).dropped = 1 :=
  by
    obtain ⟨_, _, _, _, h, _⟩ := enqueue_full_drops_oldest
      { name := "tsdb", capacity := 2, queue := [[], []], dropped := 0,
        health := Health.healthy }
      [{ metric := "cpu", labels := [], timestamp := 101, value := 0, target := "host-7",
         busiGroup := none }] (by decide) (by decide)
    exact h

theorem canonical_isSome (idL1 idL2 : String → Option registry.IdentityRecord)
    (tL1 tL2 : String → Option (String × Option String)) (now skew : Int)
    (raw : RawSample) (pt : Point) :
    (canonical idL1 tL1 now skew raw pt).isSome = (canonical idL2 tL2 now skew raw pt).isSome := by
  simp [canonical]

theorem length_flatMap_congr {α β γ : Type} (l : List α) (f : α → List β) (g : α → List γ)
    (h : ∀ a ∈ l, (f a).length = (g a).length) :
    (l.flatMap f).length = (l.flatMap g).length := by
  induction l with
  | nil => rfl
  | cons a rest ih =>
    simp only [List.flatMap_cons, List.length_append]
    rw [h a (List.mem_cons_self _ _), ih fun a ha => h a (List.mem_cons_of_mem _ ha)]

theorem length_filterMap_congr {α β γ : Type} (l : List α) (f : α → Option β)
    (g : α → Option γ) (h : ∀ a ∈ l, (f a).isSome = (g a).isSome) :
    (l.filterMap f).length = (l.filterMap g).length := by
  induction l with
  | nil => rfl
  | cons a rest ih =>
    have ha := h a (List.mem_cons_self _ _)
    have ih' := ih fun a ha => h a (List.mem_cons_of_mem _ ha)
    cases hf : f a <;> cases hg : g a <;> simp_all [List.filterMap_cons]

/-- The number of samples `Normalize` emits is the same under any two pairs of
lookups, for a hook whose keep decision does not depend on the attribution. -/
theorem Normalize_length_lookup (raws : List RawSample)
    (idL1 idL2 : String → Option registry.IdentityRecord)
    (tL1 tL2 : String → Option (String × Option String))
    (hook : CanonicalSample → HookResult) (now skew : Int)
    (hblind : ∀ (s : CanonicalSample) (target : String) (group : Option String),
      hookKeeps hook { s with target := target, busiGroup := group } = hookKeeps hook s) :
    (Normalize raws idL1 tL1 hook now skew).length =
      (Normalize raws idL2 tL2 hook now skew).length := by
  unfold Normalize
  apply length_flatMap_congr
  intro raw _
  apply length_filterMap_congr
  intro pt _
  unfold canonical
  cases resolveTimestamp now skew pt.timestamp with
  | none => rfl
  | some ts =>
    simp only [Option.map_some', Option.some_bind]
    have h1 := hblind
      { metric := raw.metric, labels := raw.tags, timestamp := ts, value := pt.value,
        target := (attribution idL1 tL1 raw.source).1,
        busiGroup := (attribution idL1 tL1 raw.source).2 }
      (attribution idL2 tL2 raw.source).1 (attribution idL2 tL2 raw.source).2
    simp only [hookKeeps] at h1
    exact h1.symm

/-- C12: a RawSample whose source identifier has no match in the identity lookup and
in the target lookup is not dropped by `Normalize`: each of its points that passes the
timestamp rule reaches the hook as a CanonicalSample with empty target and no business
group, and with the hook that keeps every sample the output has one such sample per
point; under that hook, and under every hook whose keep decision does not depend on
the attribution, the number of emitted samples is the same whichever identifiers the
lookups know. -/
theorem normalize_keeps_unknown_identity (raw : RawSample)
    (identityLookup : String → Option registry.IdentityRecord)
    (targetLookup : String → Option (String × Option String)) (now skew : Int)
    (hid : identityLookup raw.source = none) (htarget : targetLookup raw.source = none) :
    (∀ pt ∈ raw.points, ∀ ts, resolveTimestamp now skew pt.timestamp = some ts →
      canonical identityLookup targetLookup now skew raw pt =
        some { metric := raw.metric, labels := raw.tags, timestamp := ts, value := pt.value,
               target := "", busiGroup := none }) ∧
    Normalize [raw] identityLookup targetLookup noopHook now skew =
      raw.points.filterMap (fun pt =>
        (resolveTimestamp now skew pt.timestamp).map fun ts =>
          { metric := raw.metric, labels := raw.tags, timestamp := ts, value := pt.value,
            target := "", busiGroup := none }) ∧
    (∀ (raws : List RawSample) (idL : String → Option registry.IdentityRecord)
        (tL : String → Option (String × Option String)),
      (Normalize raws idL tL noopHook now skew).length =
        (Normalize raws identityLookup targetLookup noopHook now skew).length) ∧
    (∀ (raws : List RawSample) (idL : String → Option registry.IdentityRecord)
        (tL : String → Option (String × Option String)) (hook : CanonicalSample → HookResult),
      (∀ (s : CanonicalSample) (target : String) (group : Option String),
        hookKeeps hook { s with target := target, busiGroup := group } = hookKeeps hook s) →
      (Normalize raws idL tL hook now skew).length =
        (Normalize raws identityLookup targetLookup hook now skew).length) := by
  have hattr : attribution identityLookup targetLookup raw.source = ("", none) := by
    simp [attribution, hid, htarget]
  refine ⟨?_, ?_, ?_, ?_⟩
  · intro pt _ ts hts
    simp [canonical, hts, hattr]
  · simp only [Normalize, List.flatMap_cons, List.flatMap_nil, List.append_nil]
    apply List.filterMap_congr
    intro pt _
    cases hts : resolveTimestamp now skew pt.timestamp <;>
      simp [canonical, hts, hattr, applyHook, noopHook]
  · intro raws idL tL
    exact Normalize_length_lookup raws idL identityLookup tL targetLookup noopHook now skew
      (fun _ _ _ => rfl)
  · intro raws idL tL hook hblind
    exact Normalize_length_lookup raws idL identityLookup tL targetLookup hook now skew hblind

/-- C12 on the scenario of section 8: a sample of source `host-7` ingested at `t = 50`,
before any heartbeat and with no target known, is emitted with empty attribution. -/
theorem normalize_keeps_unknown_identity_witness :
    Normalize [{ metric := "cpu", tags := [("core", "0")],
                 points := [{ timestamp := some 50, value := 1 }], source := "host-7" }]
        (registry.Lookup []) (fun _ => none) noopHook 50 300 =
      [{ metric := "cpu", labels := [("core", "0")], timestamp := 50, value := 1,
         target := "", busiGroup := none }] :=
  ((normalize_keeps_unknown_identity
      { metric := "cpu", tags := [("core", "0")],
        points := [{ timestamp := some 50, value := 1 }], source := "host-7" }
      (registry.Lookup []) (fun _ => none) 50 300 rfl rfl).2.1).trans (by decide)

theorem filter_isNone_length_eq_zero (parse : String → Option RawSample)
    (records : List String) :
    (records.filter fun rec => (parse rec).isNone).length = 0 ↔
      ∀ rec ∈ records, (parse rec).isSome = true := by
  induction records with
  | nil => simp
  | cons r rest ih =>
    cases h : parse r <;> simp [List.filter_cons, h, ih]

/-- C13: for the remote-write and JSON-intake formats a request with a malformed record
fails as a whole, emits no samples and is answered with a decode failure, and a
request without one emits every record; for the line-based and legacy push formats
the malformed records are skipped and counted, every well-formed record is decoded in
order and the request succeeds; three records of which the second is malformed give 2
samples, 1 decode error and a successful response. -/
theorem decode_policy_per_protocol (parse : String → Option RawSample)
    (records : List String) :
    (∀ p ∈ [Protocol.remoteWrite, Protocol.jsonIntake],
      ((∃ rec ∈ records, parse rec = none) →
        (Decode p parse records).samples = [] ∧ (Decode p parse records).error ≠ none ∧
          respond (Decode p parse records) = Response.badRequest) ∧
      ((∀ rec ∈ records, (parse rec).isSome = true) →
        (Decode p parse records).samples = records.filterMap parse ∧
          (Decode p parse records).decodeErrors = 0 ∧
          respond (Decode p parse records) = Response.success)) ∧
    (∀ p ∈ [Protocol.linePut, Protocol.jsonPush],
      (Decode p parse records).samples = records.filterMap parse ∧
      (Decode p parse records).decodeErrors =
        (records.filter fun rec => (parse rec).isNone).length ∧
      (Decode p parse records).error = none ∧
      respond (Decode p parse records) = Response.success) ∧
    (∀ p ∈ [Protocol.linePut, Protocol.jsonPush], ∀ l1 l2 l3 s1 s3,
      parse l1 = some s1 → parse l2 = none → parse l3 = some s3 →
        (Decode p parse [l1, l2, l3]).samples = [s1, s3] ∧
        (Decode p parse [l1, l2, l3]).decodeErrors = 1 ∧
        respond (Decode p parse [l1, l2, l3]) = Response.success) := by
  refine ⟨?_, ?_, ?_⟩
  · intro p hp
    have hpol : p.policy = DecodePolicy.atomic := by
      simp only [List.mem_cons, List.mem_singleton, List.not_mem_nil, or_false] at hp
      rcases hp with rfl | rfl <;> rfl
    constructor
    · rintro ⟨rec, hrec, hnone⟩
      have hbad : (records.filter fun rec => (parse rec).isNone).length ≠ 0 := by
        intro h0
        have := (filter_isNone_length_eq_zero parse records).mp h0 rec hrec
        simp [hnone] at this
      simp [Decode, hpol, hbad, respond]
    · intro hall
      have hbad := (filter_isNone_length_eq_zero parse records).mpr hall
      simp [Decode, hpol, hbad, respond]
  · intro p hp
    have hpol : p.policy = DecodePolicy.bestEffort := by
      simp only [List.mem_cons, List.mem_singleton, List.not_mem_nil, or_false] at hp
      rcases hp with rfl | rfl <;> rfl
    simp [Decode, hpol, respond]
  · intro p hp l1 l2 l3 s1 s3 h1 h2 h3
    have hpol : p.policy = DecodePolicy.bestEffort := by
      simp only [List.mem_cons, List.mem_singleton, List.not_mem_nil, or_false] at hp
      rcases hp with rfl | rfl <;> rfl
    simp [Decode, hpol, respond, List.filterMap_cons, List.filter_cons, h1, h2, h3]

/-- C13 on three lines of which the second is malformed, for a parser that rejects the
empty line. -/
theorem decode_policy_per_protocol_witness :
    (Decode Protocol.linePut
        (fun line => if line = "" then none
          else some { metric := line, tags := [], points := [], source := "host-7" })
        ["cpu", "", "mem"]).decodeErrors = 1 ∧
    (Decode Protocol.remoteWrite
        (fun line => if line = "" then none
          else some { metric := line, tags := [], points := [], source := "host-7" })
        ["cpu", "", "mem"]).samples = [] :=
  ⟨((decode_policy_per_protocol
      (fun line => if line = "" then none
        else some { metric := line, tags := [], points := [], source := "host-7" })
      ["cpu", "", "mem"]).2.2 Protocol.linePut (by decide) "cpu" "" "mem"
      { metric := "cpu", tags := [], points := [], source := "host-7" }
      { metric := "mem", tags := [], points := [], source := "host-7" } rfl rfl rfl).2.1,
   (((decode_policy_per_protocol
      (fun line => if line = "" then none
        else some { metric := line, tags := [], points := [], source := "host-7" })
      ["cpu", "", "mem"]).1 Protocol.remoteWrite (by decide)).1 ⟨"", by decide, rfl⟩).1⟩

end pipeline
